import Mathlib

/-!
# DistanceCalculator: the application driver (`MainApplication.cc`)

A shallow embedding of `src/Application/MainApplication.cc`.

* Text is a Lean `String`; a `std::filesystem::path` is the string of its
  (absolute, lexically normal) spelling, so `path.empty()` is `p = ""` and
  `operator==` on two paths is equality of the spellings.
* A thrown `dbgh::CAssertException` is the `error` side of `Except`; every
  effect of a member function (messages handed to `io::Msg::Write`, calls made
  to the collaborators, text written to the output file, the state of the MPI
  wrapper) is threaded through an explicit `World`.
* Collaborators whose code is not part of `MainApplication.cc` (the file
  system, the output file stream, the CSV loader, the random generator, the
  distance calculator, the MPI wrapper, the stream rendering of a cell) are
  the fields of `Env`.
* Task timing (`START_TASK`) does not change what a run does and is left out;
  so are exceptions of any type other than `dbgh::CAssertException`, which
  `run` does not catch.
-/

namespace DistanceCalculator

/-- The tags of `math::EDistanceMetric`. -/
inductive EDistanceMetric where
  | L1
  | L2
  | Hamming
  deriving DecidableEq, Repr

/-- The payload of a `dbgh::CAssertException`, as read back by
`uncoverException` (`FileName`, `LineNumber`, `Function`, `Expression`,
`Message`). -/
structure CAssertException where
  Message : String
  FileName : String
  LineNumber : Nat
  Function : String
  Expression : String
  deriving DecidableEq, Repr

deriving instance DecidableEq for Except

/-- The severities of `io::MsgType` used by the driver. -/
inductive MsgType where
  | Info
  | Warning
  | Error
  deriving DecidableEq, Repr

/-- The `csv::util::Table<T>`: a vector of vectors. -/
abbrev Table (T : Type) : Type := List (List T)

/-- The `csv::util::Execution` policies. -/
inductive Execution where
  | Seq
  | Par
  | Par2
  deriving DecidableEq, Repr

/-- One call made by `run` to a collaborator or to an emitting member,
recorded when the call is made, with the arguments it is made with. -/
inductive Action (T : Type) where
  | loadCSVFiles
  | distributeTask (querySet dataSet : Table T)
  | receiveQuery
  | receiveDataSet
  | computeDistance (query dataSet : Table T) (metric : EDistanceMetric)
  | sendDistanceMatrix (matrix : Table T)
  | receiveDistanceMatrix
  | displayResult (matrix : Table T)
  | writeCSV (matrix : Table T)
  deriving DecidableEq, Repr

/-- The kind of an action, forgetting its arguments. -/
inductive Step where
  | ingest
  | distribute
  | recvQuery
  | recvDataSet
  | compute
  | send
  | gather
  | emitStdout
  | emitFile
  deriving DecidableEq, Repr

/-- The step an action belongs to. -/
def Action.step {T : Type} : Action T → Step
  | .loadCSVFiles => .ingest
  | .distributeTask _ _ => .distribute
  | .receiveQuery => .recvQuery
  | .receiveDataSet => .recvDataSet
  | .computeDistance _ _ _ => .compute
  | .sendDistanceMatrix _ => .send
  | .receiveDistanceMatrix => .gather
  | .displayResult _ => .emitStdout
  | .writeCSV _ => .emitFile

/-- Everything a run can observe or change outside its own locals. -/
structure World (σ T : Type) where
  /-- state of the `mpi::MPIWrapper` -/
  mpi : σ
  /-- the calls to `io::Msg::Write`, oldest first -/
  msgs : List (MsgType × String)
  /-- the collaborator calls, oldest first -/
  trace : List (Action T)
  /-- what the file at `m_outFile` holds; `none` while there is no such file -/
  outFile : Option String

/-- The world a run starts in. -/
def World.init {σ T : Type} (s : σ) : World σ T :=
  { mpi := s, msgs := [], trace := [], outFile := none }

/-- The collaborators of `MainApplication`. -/
structure Env (σ T : Type) where
  /-- `std::filesystem::exists` -/
  fsExists : String → Bool
  /-- `std::filesystem::absolute(p).lexically_normal()` -/
  absoluteNormal : String → String
  /-- `operator<<` of the stream on a `TValueType` cell -/
  render : T → String
  /-- `std::fstream { path, std::ios_base::out }`: what the file at `path`
  holds once the stream has been streamed `text` and destroyed; `none` when
  the stream did not open, so that every write was a no-op and no file was
  written -/
  fstream : String → String → Option String
  /-- `csv::util::generateRandomTable`; the generator is randomised, so the
  table also depends on which of the two loads asks (0 query, 1 data set) -/
  generateRandomTable : Nat → Nat → Nat → Table T
  /-- `csv::Parser { path }` followed by `csv::util::loadFlatCSV` -/
  loadFlatCSV : Execution → String → Except CAssertException (Table T)
  /-- `DistanceCalculator::computeDistance` of the calculator built around the
  parallel (`true`) or the sequential (`false`) kernel -/
  computeDistance : Bool → Table T → Table T → EDistanceMetric →
    Except CAssertException (Table T)
  /-- `MPIWrapper::isMain` -/
  isMain : Bool
  /-- `MPIWrapper::isMPF` -/
  isMPF : Bool
  /-- `MPIWrapper::numOfProcessor` -/
  numOfProcessor : Int
  /-- `MPIWrapper::distributeTask` -/
  distributeTask : σ → Table T → Table T → Except CAssertException σ
  /-- `MPIWrapper::receiveQuery` -/
  receiveQuery : σ → Except CAssertException (Table T × σ)
  /-- `MPIWrapper::receiveDataSet` -/
  receiveDataSet : σ → Except CAssertException (Table T × σ)
  /-- `MPIWrapper::sendDistanceMatrix` -/
  sendDistanceMatrix : σ → Table T → Except CAssertException σ
  /-- `MPIWrapper::receiveDistanceMatrix` -/
  receiveDistanceMatrix : σ → Except CAssertException (Table T × σ)

/-- A member function body: it reads and changes the world and either
returns or throws. The world reached at a throw is kept. -/
def App (σ T α : Type) : Type := World σ T → Except CAssertException α × World σ T

/-- Return from a member function. -/
def App.pure {σ T α : Type} (a : α) : App σ T α := fun w => (.ok a, w)

/-- Sequencing: a throw in the first part skips the second. -/
def App.bind {σ T α β : Type} (m : App σ T α) (f : α → App σ T β) : App σ T β :=
  fun w =>
    match m w with
    | (.ok a, w1) => f a w1
    | (.error e, w1) => (.error e, w1)

instance {σ T : Type} : Monad (App σ T) where
  pure := App.pure
  bind := App.bind

/-- Throw or return a pure outcome. -/
def App.lift {σ T α : Type} (r : Except CAssertException α) : App σ T α :=
  fun w => (r, w)

/-- Modelled from the spec: `io::Msg::Write(text, type)` of `Msg.h`, which is
not among the sources. The message sink takes the text on the channel that
`type` names; the call is recorded. -/
def Msg.Write {σ T : Type} (text : String) (type : MsgType) : App σ T Unit :=
  fun w => (.ok (), { w with msgs := w.msgs ++ [(type, text)] })

/-- Record a collaborator call. -/
def App.act {σ T : Type} (a : Action T) : App σ T Unit :=
  fun w => (.ok (), { w with trace := w.trace ++ [a] })

/-- Run a call of the MPI wrapper that returns a value. -/
def App.mpiCall {σ T α : Type} (f : σ → Except CAssertException (α × σ)) : App σ T α :=
  fun w =>
    match f w.mpi with
    | .ok (a, s) => (.ok a, { w with mpi := s })
    | .error e => (.error e, w)

/-- Run a call of the MPI wrapper that returns nothing. -/
def App.mpiDo {σ T : Type} (f : σ → Except CAssertException σ) : App σ T Unit :=
  fun w =>
    match f w.mpi with
    | .ok s => (.ok (), { w with mpi := s })
    | .error e => (.error e, w)

/-- The name of this translation unit as `__FILE__` spells it. -/
def sourceFile : String := "MainApplication.cc"

/-- Modelled from the spec: the assertion macro `ASSERT_ERROR(cond, message)`
of `DBGHAssert.h`, which is not among the sources. A failed assertion is a
fatal condition: it throws a `CAssertException` carrying the message and the
file, line, function and expression of the assertion. -/
def ASSERT_ERROR (line : Nat) (function expression : String) (cond : Bool)
    (message : String) : Except CAssertException Unit :=
  if cond then .ok ()
  else .error
    { Message := message, FileName := sourceFile, LineNumber := line,
      Function := function, Expression := expression }

/-- The static `s_mapNameToEnum` of `metricToEnum`, in key order. -/
def s_mapNameToEnum : List (String × EDistanceMetric) :=
  [("Hamming", .Hamming), ("L1", .L1), ("L2", .L2)]

/-- `std::map::find`: the entry whose key compares equal, if any. -/
def mapFind {V : Type} (key : String) : List (String × V) → Option V
  | [] => none
  | (k, v) :: rest => if k = key then some v else mapFind key rest

/-- `metricToEnum` (lines 33-47). -/
def metricToEnum (metric : String) : Except CAssertException EDistanceMetric :=
  let search := mapFind metric s_mapNameToEnum
  match ASSERT_ERROR 43 "metricToEnum" "search != s_mapNameToEnum.end()" search.isSome
      ("Invalid math metric name: " ++ metric) with
  | .error e => .error e
  | .ok () =>
    match search with
    | some tag => .ok tag
    | none => .ok .L1 -- not reached: the assertion above has thrown

/-- The data members of `MainApplication` that the parsed command line sets. -/
structure MainApplication where
  m_dbg : Bool
  m_executeParallel : Bool
  m_strMetric : String
  m_queryCSVFile : String
  m_dataSetCSVFile : String
  m_outFile : String
  deriving DecidableEq, Repr

/-- The members as the constructor (lines 58-69) leaves them. -/
def MainApplication.constructed : MainApplication :=
  { m_dbg := false, m_executeParallel := false, m_strMetric := "",
    m_queryCSVFile := "", m_dataSetCSVFile := "", m_outFile := "" }

/-- What `io::cli::Parser::parse` found on the command line. -/
structure CommandLine where
  /-- help was asked for: `parse()` returned false -/
  parsedHelp : Bool
  queryFilePath : String
  dataSetFilePath : String
  outFilePath : String
  executeParallel : Bool
  strMetric : String
  dbg : Bool
  deriving DecidableEq, Repr

/-- The lambda `initIfNotEmpty` of `parseAndInitParameters`. -/
def initIfNotEmpty {σ T : Type} (env : Env σ T) (path strPath : String) : String :=
  if strPath ≠ "" then env.absoluteNormal strPath else path

/-- `MainApplication::parseAndInitParameters` (lines 125-171): the members
bound to options take the parsed values; the three paths are set only when no
help was asked for. Returns the members and the function's result. -/
def parseAndInitParameters {σ T : Type} (env : Env σ T) (self : MainApplication)
    (cli : CommandLine) : MainApplication × Bool :=
  let self1 := { self with
    m_executeParallel := cli.executeParallel, m_strMetric := cli.strMetric,
    m_dbg := cli.dbg }
  if cli.parsedHelp then (self1, false)
  else
    ({ self1 with
        m_queryCSVFile := initIfNotEmpty env self1.m_queryCSVFile cli.queryFilePath,
        m_dataSetCSVFile := initIfNotEmpty env self1.m_dataSetCSVFile cli.dataSetFilePath,
        m_outFile := initIfNotEmpty env self1.m_outFile cli.outFilePath }, true)

/-- The text of the equal-paths warning. -/
def equalPathsWarning : String := "The query and data set paths is equal."

/-- `MainApplication::checkArguments` (lines 173-194). -/
def checkArguments {σ T : Type} (env : Env σ T) (self : MainApplication) : App σ T Unit := do
  Msg.Write "Analyze parameters." .Info
  App.lift (ASSERT_ERROR 177 "checkArguments"
    "m_queryCSVFile.empty() || std::filesystem::exists(m_queryCSVFile)"
    (decide (self.m_queryCSVFile = "") || env.fsExists self.m_queryCSVFile)
    ("The query file not exists. Path: " ++ self.m_queryCSVFile))
  App.lift (ASSERT_ERROR 180 "checkArguments"
    "m_dataSetCSVFile.empty() || std::filesystem::exists(m_dataSetCSVFile)"
    (decide (self.m_dataSetCSVFile = "") || env.fsExists self.m_dataSetCSVFile)
    ("The data set file not exists. Path: " ++ self.m_dataSetCSVFile))
  App.lift (ASSERT_ERROR 183 "checkArguments"
    "(m_queryCSVFile.empty() && m_dataSetCSVFile.empty()) || (!m_queryCSVFile.empty() && !m_dataSetCSVFile.empty())"
    ((decide (self.m_queryCSVFile = "") && decide (self.m_dataSetCSVFile = ""))
      || (!decide (self.m_queryCSVFile = "") && !decide (self.m_dataSetCSVFile = "")))
    "Only one set cannot generate automatically.")
  App.lift (ASSERT_ERROR 187 "checkArguments"
    "m_outFile.empty() || !std::filesystem::exists(m_outFile)"
    (decide (self.m_outFile = "") || !env.fsExists self.m_outFile)
    ("The output file already exists. File path: " ++ self.m_outFile))
  if self.m_queryCSVFile = self.m_dataSetCSVFile then
    Msg.Write equalPathsWarning .Warning

/-- The lambda `pathOrMassage` of `showSummary`. -/
def pathOrMassage (path : String) : String :=
  if path ≠ "" then path
  else "File path is empty, the set will be generated randomly."

/-- The text `operator<<` writes for a `std::filesystem::path`: the spelling
between double quotes, a backslash before every quote and backslash. -/
def quoted (path : String) : String :=
  let q := Char.ofNat 34
  let b := Char.ofNat 92
  String.mk ([q] ++ path.data.flatMap (fun c => if c = q ∨ c = b then [b, c] else [c]) ++ [q])

/-- The text of a `bool` under `std::boolalpha`. -/
def boolalpha (b : Bool) : String := if b then "true" else "false"

/-- `MainApplication::showSummary` (lines 196-221). -/
def showSummary {σ T : Type} (env : Env σ T) (self : MainApplication) : App σ T Unit := do
  Msg.Write "The execution summary:" .Info
  if self.m_dbg then
    Msg.Write "Running in debug mode." .Warning
  let ss := "\n"
    ++ "The query path:                      " ++ pathOrMassage self.m_queryCSVFile ++ "\n"
    ++ "The data set path:                   " ++ pathOrMassage self.m_dataSetCSVFile ++ "\n"
    ++ "The output path:                     " ++ quoted self.m_outFile ++ "\n"
    ++ "The math metric type:                " ++ self.m_strMetric ++ "\n"
    ++ "Execute parallel:                    " ++ boolalpha self.m_executeParallel ++ "\n"
    ++ "Running in the multi-process flow:   " ++ boolalpha env.isMPF ++ "\n"
    ++ "The available processes:             " ++ toString env.numOfProcessor ++ "\n"
  Msg.Write ss .Info

/-- The text `uncoverException` assembles in its string stream (lines 347-354). -/
def diagnosticText (e : CAssertException) : String :=
  "\n"
    ++ "  [file]:         " ++ e.FileName ++ "\n"
    ++ "  [line]:         " ++ toString e.LineNumber ++ "\n"
    ++ "  [function]:     " ++ e.Function ++ "\n"
    ++ "  [expression]:   " ++ e.Expression ++ "\n"
    ++ "  [what]:         " ++ e.Message ++ "\n"
    ++ "\n"

/-- `MainApplication::uncoverException` (lines 341-356). -/
def uncoverException {σ T : Type} (self : MainApplication) (e : CAssertException) :
    App σ T Unit :=
  if !self.m_dbg then pure ()
  else Msg.Write (diagnosticText e) .Error

/-- `MainApplication::createDistanceCalculator` (lines 223-237): the
calculator around the kernel that `m_executeParallel` selects, seen through
its `computeDistance`. -/
def createDistanceCalculator {σ T : Type} (env : Env σ T) (self : MainApplication) :
    Table T → Table T → EDistanceMetric → Except CAssertException (Table T) :=
  if self.m_executeParallel then env.computeDistance true else env.computeDistance false

/-- The lambda `load` of `loadCSVFiles` (lines 243-254); `which` tells the
random generator which of the two tables is asked for. -/
def load {σ T : Type} (env : Env σ T) (self : MainApplication) (which : Nat)
    (path : String) : Except CAssertException (Table T) :=
  if path = "" then .ok (env.generateRandomTable which 1024 1024)
  else
    let policy := if self.m_executeParallel then Execution.Par else Execution.Seq
    env.loadFlatCSV policy path

/-- The lambda `futureResult` of `loadCSVFiles` (lines 268-283): `table` and
`errorMessage` are the two variables it writes; their new values are returned. -/
def futureResult {σ T : Type} (self : MainApplication) (errorMessage : String)
    (table : Table T) (future : Except CAssertException (Table T)) :
    App σ T (Table T × String) :=
  match future with
  | .ok loaded => pure (loaded, errorMessage)
  | .error e => do
    uncoverException self e
    let errorMessage1 := if errorMessage ≠ "" then errorMessage ++ " | " else errorMessage
    pure (table, errorMessage1 ++ e.Message)

/-- The body of `MainApplication::loadCSVFiles` (lines 256-293) once the two
calls of `load` have their outcomes. -/
def loadCSVFilesFrom {σ T : Type} (self : MainApplication)
    (loadQuery loadDataSet : Except CAssertException (Table T)) :
    App σ T (Table T × Table T) :=
  if !self.m_executeParallel then do
    -- Sequential reading.
    let querySet ← App.lift loadQuery
    let dataSet ← App.lift loadDataSet
    pure (querySet, dataSet)
  else do
    -- Parallel reading.
    let (querySet, errorMessage1) ← futureResult self "" [] loadQuery
    let (dataSet, errorMessage2) ← futureResult self errorMessage1 [] loadDataSet
    App.lift (ASSERT_ERROR 291 "loadCSVFiles" "errorMessage.empty()"
      (decide (errorMessage2 = "")) errorMessage2)
    pure (querySet, dataSet)

/-- `MainApplication::loadCSVFiles` (lines 239-294). -/
def loadCSVFiles {σ T : Type} (env : Env σ T) (self : MainApplication) :
    App σ T (Table T × Table T) :=
  loadCSVFilesFrom self (load env self 0 self.m_queryCSVFile)
    (load env self 1 self.m_dataSetCSVFile)

/-- `MainApplication::computeDistances` (lines 296-305). -/
def computeDistances {σ T : Type} (env : Env σ T) (self : MainApplication)
    (query dataSet : Table T) : App σ T (Table T) := do
  let distanceCalculator := createDistanceCalculator env self
  let metric ← App.lift (metricToEnum self.m_strMetric)
  App.act (.computeDistance query dataSet metric)
  App.lift (distanceCalculator query dataSet metric)

/-- The inner loop shared by `displayResult` and `writeCSV`: every cell is
streamed and followed by `", "`; then the row is closed by `std::endl`. -/
def streamRow {T : Type} (render : T → String) (os : String) (row : List T) : String :=
  row.foldl (fun os cell => os ++ render cell ++ ", ") os ++ "\n"

/-- The outer loop shared by `displayResult` and `writeCSV`. -/
def streamTable {T : Type} (render : T → String) (os : String) (table : Table T) : String :=
  table.foldl (streamRow render) os

/-- The text `displayResult` hands to `io::Msg::Write` (lines 309-319). -/
def displayText {T : Type} (render : T → String) (table : Table T) : String :=
  streamTable render ("" ++ "The distance matrix:" ++ "\n" ++ "\n") table

/-- `MainApplication::displayResult` (lines 307-322). -/
def displayResult {σ T : Type} (env : Env σ T) (table : Table T) : App σ T Unit := do
  App.act (.displayResult table)
  Msg.Write (displayText env.render table) .Info

/-- The text `writeCSV` streams into the output file (lines 330-338). -/
def csvText {T : Type} (render : T → String) (table : Table T) : String :=
  streamTable render "" table

/-- The file at `path` after `std::fstream fOutCSV { path, std::ios_base::out }`
has been streamed `text` and destroyed (lines 330-339). The code never checks
the stream: when it did not open, the writes are no-ops, the file is as it was
`before`, and control goes on normally. -/
def fstreamOut {σ T : Type} (env : Env σ T) (path text : String)
    (before : Option String) : Option String :=
  match env.fstream path text with
  | some content => some content
  | none => before

/-- `MainApplication::writeCSV` (lines 324-339). -/
def writeCSV {σ T : Type} (env : Env σ T) (self : MainApplication) (table : Table T) :
    App σ T Unit := do
  App.act (.writeCSV table)
  App.lift (ASSERT_ERROR 327 "writeCSV" "!m_outFile.empty()"
    (!decide (self.m_outFile = "")) "The output file path is empty.")
  Msg.Write ("The output file: " ++ self.m_outFile) .Info
  fun w => (.ok (), { w with
    outFile := fstreamOut env self.m_outFile (csvText env.render table) w.outFile })

/-- Lines 85-97 of `run`: how a rank comes by its query chunk and its data
set. `isMain` does not change during a run, so the three `if`s on it are
resolved once. -/
def obtainInputs {σ T : Type} (env : Env σ T) (self : MainApplication) :
    App σ T (Table T × Table T) :=
  if env.isMain then do
    App.act .loadCSVFiles
    let (loadedQuerySet, loadedDataSet) ← loadCSVFiles env self
    App.act (.distributeTask loadedQuerySet loadedDataSet)
    App.mpiDo (fun s => env.distributeTask s loadedQuerySet loadedDataSet)
    let dataSet := loadedDataSet
    App.act .receiveQuery
    let querySet ← App.mpiCall env.receiveQuery
    pure (querySet, dataSet)
  else do
    App.act .receiveQuery
    let querySet ← App.mpiCall env.receiveQuery
    App.act .receiveDataSet
    let dataSet ← App.mpiCall env.receiveDataSet
    pure (querySet, dataSet)

/-- Lines 99-115 of `run`: compute, contribute, and on the main rank gather
and emit. -/
def computeAndEmit {σ T : Type} (env : Env σ T) (self : MainApplication)
    (querySet dataSet : Table T) : App σ T Unit := do
  let distancesMatrix ← computeDistances env self querySet dataSet
  App.act (.sendDistanceMatrix distancesMatrix)
  App.mpiDo (fun s => env.sendDistanceMatrix s distancesMatrix)
  if env.isMain then do
    App.act .receiveDistanceMatrix
    let fullDistancesMatrix ← App.mpiCall env.receiveDistanceMatrix
    if self.m_outFile = "" then
      displayResult env fullDistancesMatrix
    else
      writeCSV env self fullDistancesMatrix
  Msg.Write "The distance computing completed successfully." .Info

/-- The `try` block of `run` (lines 75-115) after the command line has been
parsed with result `parsed`: `some c` when the block returns `c`, `none` when
control leaves the block at its end. -/
def tryBlock {σ T : Type} (env : Env σ T) (self : MainApplication) (parsed : Bool) :
    App σ T (Option Int) :=
  if !parsed then pure (some 0) -- Called help.
  else do
    checkArguments env self
    showSummary env self
    let (querySet, dataSet) ← obtainInputs env self
    computeAndEmit env self querySet dataSet
    pure none

/-- `MainApplication::run` (lines 71-123): the exit code and the world left
behind. -/
def run {σ T : Type} (env : Env σ T) (cli : CommandLine) (w : World σ T) :
    Int × World σ T :=
  let (self, parsed) := parseAndInitParameters env MainApplication.constructed cli
  match tryBlock env self parsed w with
  | (.ok (some code), w1) => (code, w1)
  | (.ok none, w1) => (0, w1)
  | (.error e, w1) =>
    -- catch (const dbgh::CAssertException& e)
    let handler : App σ T Unit := do
      uncoverException self e
      Msg.Write e.Message .Error
    (0, (handler w1).2)

/-- The exception `metricToEnum` throws for the name `metric`. -/
def invalidMetric (metric : String) : CAssertException :=
  { Message := "Invalid math metric name: " ++ metric, FileName := sourceFile,
    LineNumber := 43, Function := "metricToEnum",
    Expression := "search != s_mapNameToEnum.end()" }

/-- Validation rule (1) is violated: exactly one of the query and data set
paths is empty. -/
def rule1Violated (self : MainApplication) : Prop :=
  (self.m_queryCSVFile = "" ∧ self.m_dataSetCSVFile ≠ "")
    ∨ (self.m_queryCSVFile ≠ "" ∧ self.m_dataSetCSVFile = "")

/-- Validation rule (2) is violated: a non-empty query path or a non-empty
data set path does not exist. -/
def rule2Violated {σ T : Type} (env : Env σ T) (self : MainApplication) : Prop :=
  (self.m_queryCSVFile ≠ "" ∧ env.fsExists self.m_queryCSVFile = false)
    ∨ (self.m_dataSetCSVFile ≠ "" ∧ env.fsExists self.m_dataSetCSVFile = false)

/-- Validation rule (3) is violated: the output path is non-empty and exists
already. -/
def rule3Violated {σ T : Type} (env : Env σ T) (self : MainApplication) : Prop :=
  self.m_outFile ≠ "" ∧ env.fsExists self.m_outFile = true

/-- A failed load with the given message, for examples. -/
def sampleFailure (message : String) : CAssertException :=
  { Message := message, FileName := "CSVUtils.cc", LineNumber := 1,
    Function := "loadFlatCSV", Expression := "false" }

/-- An environment for examples: cells are the one-digit numbers, the MPI wrapper
has no state, the files that exist are those listed, loading a file fails
with the message `"bad " ++ path` unless the path is `"ok.csv"`, an output
stream opens and takes every write unless the path is `"nodir/out.csv"`, and
the distance calculator returns one row `[0]` per query row. -/
def sampleEnv (isMain : Bool) (existing : List String) : Env Unit (Fin 10) :=
  { fsExists := fun p => decide (p ∈ existing)
    absoluteNormal := fun p => p
    render := fun n => toString n.val
    fstream := fun p text => if p = "nodir/out.csv" then none else some text
    generateRandomTable := fun _ _ _ => [[1, 2], [3, 4]]
    loadFlatCSV := fun _ p =>
      if p = "ok.csv" then .ok [[1, 2], [3, 4]]
      else .error (sampleFailure ("bad " ++ p))
    computeDistance := fun _ q _ _ => .ok (q.map (fun _ => [0]))
    isMain := isMain
    isMPF := false
    numOfProcessor := 1
    distributeTask := fun s _ _ => .ok s
    receiveQuery := fun s => .ok ([[1, 2]], s)
    receiveDataSet := fun s => .ok ([[5, 6]], s)
    sendDistanceMatrix := fun s _ => .ok s
    receiveDistanceMatrix := fun s => .ok ([[7], [9]], s) }

/-- Members for examples: the given paths and metric, sequential, no debug. -/
def sampleApp (query dataSet out metric : String) : MainApplication :=
  { m_dbg := false, m_executeParallel := false, m_strMetric := metric,
    m_queryCSVFile := query, m_dataSetCSVFile := dataSet, m_outFile := out }

/-- The text of one row in which every cell is followed by `", "` and the row
is closed by a newline. -/
def rowLine {T : Type} (render : T → String) (row : List T) : String :=
  String.join (row.map (fun cell => render cell ++ ", ")) ++ "\n"

/-- The text of a table: the lines of its rows, in table order. -/
def tableLines {T : Type} (render : T → String) (table : Table T) : String :=
  String.join (table.map (rowLine render))

/-- The text of one row as the output format is worded: the cells with
`", "` between adjacent cells only, closed by a newline. -/
def separatedRowLine {T : Type} (render : T → String) (row : List T) : String :=
  ", ".intercalate (row.map render) ++ "\n"

/-- The text of a table as the output format is worded. -/
def separatedTableLines {T : Type} (render : T → String) (table : Table T) : String :=
  String.join (table.map (separatedRowLine render))

/-- The number of places in `text` at which `pat` occurs. -/
def countOcc (pat : List Char) : List Char → Nat
  | [] => 0
  | c :: cs => (if pat.isPrefixOf (c :: cs) then 1 else 0) + countOcc pat cs

/-- The number of occurrences of the separator `", "` in a text. -/
def separators (text : String) : Nat := countOcc [',', ' '] text.data

/-- The number of newline characters in a text, that is, of its lines when
every line is closed by a newline. -/
def newlines (text : String) : Nat := text.data.count '\n'

/-- Members for examples that load in parallel: the given query and data set
paths, metric L1, no output path, no debug. -/
def sampleParallelApp (query dataSet : String) : MainApplication :=
  { m_dbg := false, m_executeParallel := true, m_strMetric := "L1",
    m_queryCSVFile := query, m_dataSetCSVFile := dataSet, m_outFile := "" }

/-- The message that closes a successful `try` block of `run`. -/
def successMessage : String := "The distance computing completed successfully."

/-- The members of the application once `run` has parsed the command line. -/
def members {σ T : Type} (env : Env σ T) (cli : CommandLine) : MainApplication :=
  (parseAndInitParameters env MainApplication.constructed cli).1

/-- A command line for examples in debug mode: no help, sequential, no paths. -/
def sampleDebugCli (metric : String) : CommandLine :=
  { parsedHelp := false, queryFilePath := "", dataSetFilePath := "",
    outFilePath := "", executeParallel := false, strMetric := metric, dbg := true }

/-- A command line for examples: no help, sequential, no debug. -/
def sampleCli (query dataSet out metric : String) : CommandLine :=
  { parsedHelp := false, queryFilePath := query, dataSetFilePath := dataSet,
    outFilePath := out, executeParallel := false, strMetric := metric, dbg := false }

/-! ## The `App` calculus -/

section calculus

variable {σ T α β : Type}

@[simp] theorem app_bind_apply (m : App σ T α) (f : α → App σ T β) (w : World σ T) :
    (m >>= f) w = match m w with
      | (.ok a, w1) => f a w1
      | (.error e, w1) => (.error e, w1) := rfl

@[simp] theorem app_pure_apply (a : α) (w : World σ T) :
    (pure a : App σ T α) w = (.ok a, w) := rfl

@[simp] theorem app_lift_apply (r : Except CAssertException α) (w : World σ T) :
    (App.lift r : App σ T α) w = (r, w) := rfl

@[simp] theorem msg_write_apply (text : String) (type : MsgType) (w : World σ T) :
    (Msg.Write text type : App σ T Unit) w
      = (.ok (), { w with msgs := w.msgs ++ [(type, text)] }) := rfl

@[simp] theorem app_act_apply (a : Action T) (w : World σ T) :
    (App.act a : App σ T Unit) w = (.ok (), { w with trace := w.trace ++ [a] }) := rfl

end calculus

/-! ## Metric selector -/

theorem metricToEnum_eval (s : String) :
    metricToEnum s =
      if s = "L1" then .ok .L1
      else if s = "L2" then .ok .L2
      else if s = "Hamming" then .ok .Hamming
      else .error (invalidMetric s) := by
  unfold metricToEnum
  by_cases h1 : s = "L1"
  · subst h1; rfl
  by_cases h2 : s = "L2"
  · subst h2; rfl
  by_cases h3 : s = "Hamming"
  · subst h3; rfl
  have e1 : ¬ "L1" = s := fun h => h1 h.symm
  have e2 : ¬ "L2" = s := fun h => h2 h.symm
  have e3 : ¬ "Hamming" = s := fun h => h3 h.symm
  simp [mapFind, s_mapNameToEnum, h1, h2, h3, e1, e2, e3, ASSERT_ERROR, invalidMetric]

/-- C1. `metricToEnum` succeeds exactly on the three names "L1", "L2" and
"Hamming", compared exactly and with case, and then returns the tag of that
name; on every other string (so on "l1", "L3", "" and "L1 ") it throws the
assertion error "Invalid math metric name: " followed by the string. -/
theorem metricToEnum_three_entries (s : String) :
    (metricToEnum s =
      if s = "L1" then .ok .L1
      else if s = "L2" then .ok .L2
      else if s = "Hamming" then .ok .Hamming
      else .error (invalidMetric s))
    ∧ ((∃ tag, metricToEnum s = .ok tag) ↔ (s = "L1" ∨ s = "L2" ∨ s = "Hamming"))
    ∧ ((∃ e, metricToEnum s = .error e) ↔ ¬ (s = "L1" ∨ s = "L2" ∨ s = "Hamming"))
    ∧ (metricToEnum s = .ok .L1 ↔ s = "L1")
    ∧ (metricToEnum s = .ok .L2 ↔ s = "L2")
    ∧ (metricToEnum s = .ok .Hamming ↔ s = "Hamming")
    ∧ metricToEnum "l1" = .error (invalidMetric "l1")
    ∧ metricToEnum "L3" = .error (invalidMetric "L3")
    ∧ metricToEnum "" = .error (invalidMetric "")
    ∧ metricToEnum "L1 " = .error (invalidMetric "L1 ") := by
  refine ⟨metricToEnum_eval s, ?_, ?_, ?_, ?_, ?_, by decide, by decide, by decide, by decide⟩
  all_goals
    rw [metricToEnum_eval]
    by_cases h1 : s = "L1"
    · subst h1; simp
    by_cases h2 : s = "L2"
    · subst h2; simp
    by_cases h3 : s = "Hamming"
    · subst h3; simp
    simp [h1, h2, h3]

/-! ## Argument validation -/

theorem checkArguments_ok_iff {σ T : Type} (env : Env σ T) (self : MainApplication)
    (w : World σ T) :
    (checkArguments env self w).1 = .ok ()
      ↔ ¬ (rule1Violated self ∨ rule2Violated env self ∨ rule3Violated env self) := by
  unfold rule1Violated rule2Violated rule3Violated checkArguments
  by_cases hq : self.m_queryCSVFile = "" <;> by_cases hd : self.m_dataSetCSVFile = ""
    <;> by_cases ho : self.m_outFile = ""
    <;> cases hqe : env.fsExists self.m_queryCSVFile
    <;> cases hde : env.fsExists self.m_dataSetCSVFile
    <;> cases hoe : env.fsExists self.m_outFile
    <;> simp [hq, hd, ho, hqe, hde, hoe, ASSERT_ERROR]
    <;> split <;> rfl

theorem checkArguments_msgs {σ T : Type} (env : Env σ T) (self : MainApplication)
    (w : World σ T) (h : (checkArguments env self w).1 = .ok ()) :
    (checkArguments env self w).2.msgs
      = w.msgs ++ [(MsgType.Info, "Analyze parameters.")]
          ++ (if self.m_queryCSVFile = self.m_dataSetCSVFile
              then [(MsgType.Warning, equalPathsWarning)] else []) := by
  revert h
  unfold checkArguments
  simp only [app_bind_apply, msg_write_apply, app_lift_apply, ASSERT_ERROR]
  split_ifs <;> simp

/-- C2. For every query path, data set path, output path and file-existence
predicate, `checkArguments` throws if and only if at least one of the three
rules is violated: (1) exactly one of the query and data set paths is empty,
(2) a non-empty query or data set path does not exist, (3) the output path is
non-empty and exists already; and it returns normally if and only if none is
violated. -/
theorem checkArguments_raises_iff_rule_violated {σ T : Type} (env : Env σ T)
    (self : MainApplication) (w : World σ T) :
    ((∃ e, (checkArguments env self w).1 = .error e)
        ↔ (rule1Violated self ∨ rule2Violated env self ∨ rule3Violated env self))
    ∧ ((checkArguments env self w).1 = .ok ()
        ↔ ¬ (rule1Violated self ∨ rule2Violated env self ∨ rule3Violated env self)) := by
  have hok := checkArguments_ok_iff env self w
  refine ⟨?_, hok⟩
  constructor
  · rintro ⟨e, he⟩
    by_contra hv
    rw [hok.mpr hv] at he
    cases he
  · intro hv
    cases hres : (checkArguments env self w).1 with
    | error e => exact ⟨e, rfl⟩
    | ok u => exact absurd (hok.mp hres) (fun h => h hv)

/-- C10. In every argument state that satisfies the three validation rules
`checkArguments` does not throw, whether or not the two paths are equal, and
the messages it writes are "Analyze parameters." followed by the equal-paths
warning exactly when the query path equals the data set path (so also when
both paths are empty). -/
theorem checkArguments_equal_paths_warning {σ T : Type} (env : Env σ T)
    (self : MainApplication) (w : World σ T)
    (hvalid : ¬ (rule1Violated self ∨ rule2Violated env self ∨ rule3Violated env self)) :
    (checkArguments env self w).1 = .ok ()
    ∧ (checkArguments env self w).2.msgs
        = w.msgs ++ [(MsgType.Info, "Analyze parameters.")]
            ++ (if self.m_queryCSVFile = self.m_dataSetCSVFile
                then [(MsgType.Warning, equalPathsWarning)] else [])
    ∧ ((MsgType.Warning, equalPathsWarning)
          ∈ (checkArguments env self w).2.msgs.drop w.msgs.length
        ↔ self.m_queryCSVFile = self.m_dataSetCSVFile) := by
  have hok := (checkArguments_ok_iff env self w).mpr hvalid
  have hm := checkArguments_msgs env self w hok
  refine ⟨hok, hm, ?_⟩
  rw [hm, List.append_assoc, List.drop_left]
  by_cases heq : self.m_queryCSVFile = self.m_dataSetCSVFile
  · simp [heq]
  · simp [heq, equalPathsWarning]

/-- The default run (both paths empty, so random tables) passes validation
and still gets the equal-paths warning. -/
theorem checkArguments_equal_paths_warning_witness :
    ¬ (rule1Violated (sampleApp "" "" "" "L1")
        ∨ rule2Violated (sampleEnv true []) (sampleApp "" "" "" "L1")
        ∨ rule3Violated (sampleEnv true []) (sampleApp "" "" "" "L1"))
    ∧ (checkArguments (sampleEnv true []) (sampleApp "" "" "" "L1") (World.init ())).1 = .ok ()
    ∧ (checkArguments (sampleEnv true []) (sampleApp "" "" "" "L1") (World.init ())).2.msgs
        = (World.init () : World Unit (Fin 10)).msgs ++ [(MsgType.Info, "Analyze parameters.")]
            ++ (if (sampleApp "" "" "" "L1").m_queryCSVFile
                  = (sampleApp "" "" "" "L1").m_dataSetCSVFile
                then [(MsgType.Warning, equalPathsWarning)] else [])
    ∧ ((MsgType.Warning, equalPathsWarning)
          ∈ (checkArguments (sampleEnv true []) (sampleApp "" "" "" "L1")
              (World.init ())).2.msgs.drop (World.init () : World Unit (Fin 10)).msgs.length
        ↔ (sampleApp "" "" "" "L1").m_queryCSVFile
            = (sampleApp "" "" "" "L1").m_dataSetCSVFile) :=
  ⟨by simp [rule1Violated, rule2Violated, rule3Violated, sampleApp],
   checkArguments_equal_paths_warning (sampleEnv true []) (sampleApp "" "" "" "L1")
     (World.init ()) (by simp [rule1Violated, rule2Violated, rule3Violated, sampleApp])⟩

/-! ## The emitted text -/

theorem cells_foldl {T : Type} (render : T → String) (row : List T) (os : String) :
    row.foldl (fun os cell => os ++ render cell ++ ", ") os
      = os ++ String.join (row.map (fun cell => render cell ++ ", ")) := by
  induction row generalizing os with
  | nil => exact String.ext (by simp)
  | cons c cs ih =>
    rw [List.foldl_cons, ih]
    exact String.ext (by simp)

theorem streamRow_eq {T : Type} (render : T → String) (os : String) (row : List T) :
    streamRow render os row = os ++ rowLine render row := by
  unfold streamRow rowLine
  rw [cells_foldl, String.append_assoc]

theorem streamTable_eq {T : Type} (render : T → String) (table : Table T) (os : String) :
    streamTable render os table = os ++ tableLines render table := by
  unfold streamTable tableLines
  induction table generalizing os with
  | nil => exact String.ext (by simp)
  | cons r rs ih =>
    rw [List.foldl_cons, ih, streamRow_eq]
    exact String.ext (by simp)

theorem csvText_eq {T : Type} (render : T → String) (table : Table T) :
    csvText render table = tableLines render table := by
  unfold csvText
  rw [streamTable_eq, String.empty_append]

theorem displayText_eq {T : Type} (render : T → String) (table : Table T) :
    displayText render table
      = "The distance matrix:" ++ "\n" ++ "\n" ++ csvText render table := by
  unfold displayText
  rw [streamTable_eq, csvText_eq, String.empty_append]

theorem countOcc_skip (pat : List Char) (p : Char) (l r : List Char) (hp : p ∉ l) :
    countOcc (p :: pat) (l ++ r) = countOcc (p :: pat) r := by
  induction l with
  | nil => rfl
  | cons x xs ih =>
    have hx : ¬ p = x := fun h => hp (by simp [h])
    have hxs : p ∉ xs := fun h => hp (by simp [h])
    simp [countOcc, List.isPrefixOf, hx, ih hxs]

theorem separators_cells {T : Type} (render : T → String) (row : List T) (tail : List Char)
    (hr : ∀ c, ',' ∉ (render c).data) :
    countOcc [',', ' '] ((String.join (row.map (fun cell => render cell ++ ", "))).data ++ tail)
      = row.length + countOcc [',', ' '] tail := by
  induction row with
  | nil => simp
  | cons c cs ih =>
    have h1 : (String.join ((c :: cs).map (fun cell => render cell ++ ", "))).data ++ tail
        = (render c).data ++ (',' :: ' ' ::
            ((String.join (cs.map (fun cell => render cell ++ ", "))).data ++ tail)) := by
      simp
    rw [h1, countOcc_skip _ _ _ _ (hr c)]
    have h2 : ∀ rest : List Char,
        countOcc [',', ' '] (',' :: ' ' :: rest) = 1 + countOcc [',', ' '] rest := by
      intro rest
      simp [countOcc, List.isPrefixOf]
    rw [h2, ih, List.length_cons]
    omega

theorem separators_rowLine {T : Type} (render : T → String) (row : List T)
    (hr : ∀ c, ',' ∉ (render c).data) :
    separators (rowLine render row) = row.length := by
  unfold separators rowLine
  rw [String.data_append, separators_cells render row _ hr]
  simp [countOcc, List.isPrefixOf]

theorem newlines_rowLine {T : Type} (render : T → String) (row : List T)
    (hr : ∀ c, '\n' ∉ (render c).data) :
    newlines (rowLine render row) = 1 := by
  unfold newlines rowLine
  have h : (String.join (row.map (fun cell => render cell ++ ", "))).data.count '\n' = 0 := by
    induction row with
    | nil => simp
    | cons c cs ih =>
      simp only [List.map_cons, String.data_join, List.flatten_cons, List.count_append,
        String.data_append] at ih ⊢
      rw [ih, List.count_eq_zero_of_not_mem (hr c)]
      decide
  rw [String.data_append, List.count_append, h]
  decide

theorem newlines_tableLines {T : Type} (render : T → String) (table : Table T)
    (hr : ∀ c, '\n' ∉ (render c).data) :
    newlines (tableLines render table) = table.length := by
  induction table with
  | nil => rfl
  | cons r rs ih =>
    have h := newlines_rowLine render r hr
    unfold newlines tableLines at *
    simp only [List.map_cons, String.data_join, List.flatten_cons, List.count_append,
      List.length_cons] at ih ⊢
    rw [ih, h]
    omega

theorem fstreamOut_none {σ T : Type} (env : Env σ T) (path text : String) :
    fstreamOut env path text none = env.fstream path text := by
  unfold fstreamOut
  cases env.fstream path text <;> rfl

theorem writeCSV_eval {σ T : Type} (env : Env σ T) (self : MainApplication)
    (table : Table T) (w : World σ T) (hout : self.m_outFile ≠ "") :
    writeCSV env self table w
      = (.ok (), { w with
          trace := w.trace ++ [Action.writeCSV table],
          msgs := w.msgs ++ [(MsgType.Info, "The output file: " ++ self.m_outFile)],
          outFile := fstreamOut env self.m_outFile (csvText env.render table) w.outFile })
      := by
  unfold writeCSV
  simp [ASSERT_ERROR, hout]

theorem displayResult_eval {σ T : Type} (env : Env σ T) (table : Table T) (w : World σ T) :
    displayResult env table w
      = (.ok (), { w with
          trace := w.trace ++ [Action.displayResult table],
          msgs := w.msgs ++ [(MsgType.Info, displayText env.render table)] }) := by
  unfold displayResult
  simp

/-- C5 (amended). With a non-empty output path `writeCSV` returns normally,
and the text it streams to the output file is the concatenation, over the
rows in table order, of the row's cells each rendered and each followed by
", " (so also the last cell of a row), every row closed by one newline. The
file holds what the unchecked stream delivered: exactly that text when the
stream opens and takes the writes, and what it held before when the stream
does not open. When no rendered cell contains a comma or a newline, the line
of a row with k cells contains exactly k occurrences of ", " and the text has
exactly as many newline-closed lines as the table has rows. -/
theorem writeCSV_format {σ T : Type} (env : Env σ T) (self : MainApplication)
    (table : Table T) (w : World σ T) (hout : self.m_outFile ≠ "")
    (hcomma : ∀ c, ',' ∉ (env.render c).data)
    (hnewline : ∀ c, '\n' ∉ (env.render c).data) :
    (writeCSV env self table w).1 = .ok ()
    ∧ (writeCSV env self table w).2.outFile
        = (match env.fstream self.m_outFile
              (String.join (table.map (fun row =>
                String.join (row.map (fun cell => env.render cell ++ ", ")) ++ "\n"))) with
           | some content => some content
           | none => w.outFile)
    ∧ ((∀ text, env.fstream self.m_outFile text = some text) →
        (writeCSV env self table w).2.outFile
          = some (String.join (table.map (fun row =>
              String.join (row.map (fun cell => env.render cell ++ ", ")) ++ "\n"))))
    ∧ ((∀ text, env.fstream self.m_outFile text = none) →
        (writeCSV env self table w).2.outFile = w.outFile)
    ∧ (∀ row : List T,
        separators (String.join (row.map (fun cell => env.render cell ++ ", ")) ++ "\n")
          = row.length)
    ∧ newlines (String.join (table.map (fun row =>
        String.join (row.map (fun cell => env.render cell ++ ", ")) ++ "\n")))
        = table.length := by
  rw [writeCSV_eval env self table w hout, csvText_eq]
  refine ⟨rfl, rfl, ?_, ?_, fun row => separators_rowLine env.render row hcomma,
    newlines_tableLines env.render table hnewline⟩
  · intro h
    simp only [fstreamOut, h]
    rfl
  · intro h
    simp only [fstreamOut, h]

/-- A two-by-two table written to `out.csv`, which opens. -/
theorem writeCSV_format_witness :
    (sampleApp "" "" "out.csv" "L1").m_outFile ≠ ""
    ∧ (∀ c, ',' ∉ ((sampleEnv true []).render c).data)
    ∧ (∀ c, '\n' ∉ ((sampleEnv true []).render c).data)
    ∧ (∀ text, (sampleEnv true []).fstream (sampleApp "" "" "out.csv" "L1").m_outFile text
        = some text)
    ∧ (writeCSV (sampleEnv true []) (sampleApp "" "" "out.csv" "L1") [[1, 2], [3, 4]]
          (World.init ())).2.outFile
        = some (String.join (([[1, 2], [3, 4]] : Table (Fin 10)).map (fun row =>
            String.join (row.map (fun cell => (sampleEnv true []).render cell ++ ", "))
              ++ "\n")))
    ∧ (writeCSV (sampleEnv true []) (sampleApp "" "" "out.csv" "L1") [[1, 2], [3, 4]]
          (World.init ())).2.outFile = some "1, 2, \n3, 4, \n" :=
  ⟨by decide, by decide, by decide, fun _ => rfl,
   (writeCSV_format (sampleEnv true []) (sampleApp "" "" "out.csv" "L1") [[1, 2], [3, 4]]
     (World.init ()) (by decide) (by decide) (by decide)).2.2.1 (fun _ => rfl),
   by decide⟩

/-- C5 as worded fails on the one-row table `[[1, 2]]` written to a file that
opens: the file holds `1, 2, ` and a newline, not `1, 2` and a newline, and
the line of this row of two cells contains two separators, not one. -/
theorem writeCSV_separator_counterexample :
    (writeCSV (sampleEnv true []) (sampleApp "" "" "out.csv" "L1") [[1, 2]]
        (World.init ())).2.outFile = some "1, 2, \n"
    ∧ separatedTableLines (sampleEnv true []).render [[1, 2]] = "1, 2\n"
    ∧ (writeCSV (sampleEnv true []) (sampleApp "" "" "out.csv" "L1") [[1, 2]]
        (World.init ())).2.outFile
        ≠ some (separatedTableLines (sampleEnv true []).render [[1, 2]])
    ∧ separators "1, 2, \n" = 2
    ∧ ([1, 2] : List (Fin 10)).length - 1 = 1 := by
  decide

/-- C6 (amended). The text `displayResult` emits is the line "The distance
matrix:", an empty line, and then exactly the text that `writeCSV` streams to
the output file for the same table (the text the file then holds whenever the
stream opens and takes the writes); it is handed to the message sink as one
informational message, and the output file is left alone. -/
theorem displayResult_text {σ T : Type} (env : Env σ T) (self : MainApplication)
    (table : Table T) (w w0 : World σ T) (hout : self.m_outFile ≠ "") :
    ∃ written,
      (writeCSV env self table w0).2.outFile
          = (match env.fstream self.m_outFile written with
             | some content => some content
             | none => w0.outFile)
      ∧ ((∀ text, env.fstream self.m_outFile text = some text) →
          (writeCSV env self table w0).2.outFile = some written)
      ∧ (displayResult env table w).1 = .ok ()
      ∧ (displayResult env table w).2.msgs
          = w.msgs ++ [(MsgType.Info, "The distance matrix:" ++ "\n" ++ "\n" ++ written)]
      ∧ (displayResult env table w).2.outFile = w.outFile := by
  refine ⟨csvText env.render table, ?_, ?_, ?_, ?_, ?_⟩
  · rw [writeCSV_eval env self table w0 hout]
    rfl
  · intro h
    rw [writeCSV_eval env self table w0 hout]
    simp only [fstreamOut, h]
  · rw [displayResult_eval]
  · rw [displayResult_eval, displayText_eq]
  · rw [displayResult_eval]

/-- The gathered matrix `[[7], [9]]` shown on stdout and written to a file. -/
theorem displayResult_text_witness :
    (sampleApp "" "" "out.csv" "L1").m_outFile ≠ ""
    ∧ ∃ written,
      (writeCSV (sampleEnv true []) (sampleApp "" "" "out.csv" "L1") [[7], [9]]
          (World.init ())).2.outFile
          = (match (sampleEnv true []).fstream (sampleApp "" "" "out.csv" "L1").m_outFile
                written with
             | some content => some content
             | none => (World.init () : World Unit (Fin 10)).outFile)
      ∧ ((∀ text, (sampleEnv true []).fstream (sampleApp "" "" "out.csv" "L1").m_outFile text
            = some text) →
          (writeCSV (sampleEnv true []) (sampleApp "" "" "out.csv" "L1") [[7], [9]]
            (World.init ())).2.outFile = some written)
      ∧ (displayResult (sampleEnv true []) [[7], [9]] (World.init ())).1 = .ok ()
      ∧ (displayResult (sampleEnv true []) [[7], [9]] (World.init ())).2.msgs
          = (World.init () : World Unit (Fin 10)).msgs
              ++ [(MsgType.Info, "The distance matrix:" ++ "\n" ++ "\n" ++ written)]
      ∧ (displayResult (sampleEnv true []) [[7], [9]] (World.init ())).2.outFile
          = (World.init () : World Unit (Fin 10)).outFile :=
  ⟨by decide,
   displayResult_text (sampleEnv true []) (sampleApp "" "" "out.csv" "L1") [[7], [9]]
     (World.init ()) (World.init ()) (by decide)⟩

/-- C6 as worded fails on the table `[[7]]`: what `displayResult` emits starts
with the heading "The distance matrix:" and an empty line before the first
row, so it is not the text `writeCSV` writes. -/
theorem displayResult_heading_counterexample :
    (displayResult (sampleEnv true []) [[7]] (World.init ())).2.msgs
        = [(MsgType.Info, "The distance matrix:\n\n7, \n")]
    ∧ (writeCSV (sampleEnv true []) (sampleApp "" "" "out.csv" "L1") [[7]]
        (World.init ())).2.outFile = some "7, \n"
    ∧ ("The distance matrix:\n\n7, \n" : String) ≠ "7, \n"
    ∧ ("The distance matrix:\n\n7, \n" : String).data.head? ≠ some '7' := by
  decide

/-! ## Loading the two tables -/

theorem uncoverException_eval {σ T : Type} (self : MainApplication) (e : CAssertException)
    (w : World σ T) :
    ∃ ms, uncoverException self e w = (.ok (), { w with msgs := w.msgs ++ ms }) := by
  unfold uncoverException
  cases self.m_dbg
  · exact ⟨[], by simp⟩
  · exact ⟨_, by simp; rfl⟩

theorem loadCSVFilesFrom_sequential {σ T : Type} (self : MainApplication)
    (rq rd : Except CAssertException (Table T)) (w : World σ T)
    (hseq : self.m_executeParallel = false) :
    loadCSVFilesFrom self rq rd w
      = match rq, rd with
        | .error e, _ => (.error e, w)
        | .ok _, .error e => (.error e, w)
        | .ok q, .ok d => (.ok (q, d), w) := by
  unfold loadCSVFilesFrom
  cases rq <;> cases rd <;> simp [hseq]

theorem loadCSVFilesFrom_parallel_unfold {σ T : Type} (self : MainApplication)
    (rq rd : Except CAssertException (Table T))
    (hpar : self.m_executeParallel = true) :
    (loadCSVFilesFrom self rq rd : App σ T (Table T × Table T))
      = (futureResult self "" [] rq >>= fun r1 =>
          futureResult self r1.2 [] rd >>= fun r2 =>
            App.lift (ASSERT_ERROR 291 "loadCSVFiles" "errorMessage.empty()"
              (decide (r2.2 = "")) r2.2) >>= fun _ => pure (r1.1, r2.1)) := by
  unfold loadCSVFilesFrom
  simp only [hpar, Bool.not_true, Bool.false_eq_true, if_false]

theorem futureResult_ok {σ T : Type} (self : MainApplication) (em : String)
    (table loaded : Table T) (w : World σ T) :
    futureResult self em table (.ok loaded) w = (.ok (loaded, em), w) := rfl

theorem futureResult_error {σ T : Type} (self : MainApplication) (em : String)
    (table : Table T) (e : CAssertException) (w : World σ T) :
    ∃ ms, futureResult self em table (.error e) w
      = (.ok (table, (if em ≠ "" then em ++ " | " else em) ++ e.Message),
          { w with msgs := w.msgs ++ ms }) := by
  obtain ⟨ms, hms⟩ := uncoverException_eval (σ := σ) (T := T) self e w
  refine ⟨ms, ?_⟩
  unfold futureResult
  simp only [app_bind_apply, hms, app_pure_apply]

theorem loadCSVFilesFrom_parallel {σ T : Type} (self : MainApplication)
    (rq rd : Except CAssertException (Table T)) (w : World σ T)
    (hpar : self.m_executeParallel = true) :
    (loadCSVFilesFrom self rq rd w).1
      = match rq, rd with
        | .ok q, .ok d => .ok (q, d)
        | .error e, .ok d =>
          (ASSERT_ERROR 291 "loadCSVFiles" "errorMessage.empty()"
            (decide (e.Message = "")) e.Message).map (fun _ => ([], d))
        | .ok q, .error e =>
          (ASSERT_ERROR 291 "loadCSVFiles" "errorMessage.empty()"
            (decide (e.Message = "")) e.Message).map (fun _ => (q, []))
        | .error e1, .error e2 =>
          (ASSERT_ERROR 291 "loadCSVFiles" "errorMessage.empty()"
            (decide ((if e1.Message ≠ "" then e1.Message ++ " | " else e1.Message)
              ++ e2.Message = ""))
            ((if e1.Message ≠ "" then e1.Message ++ " | " else e1.Message)
              ++ e2.Message)).map (fun _ => ([], [])) := by
  rw [loadCSVFilesFrom_parallel_unfold self rq rd hpar]
  cases rq with
  | ok q =>
    cases rd with
    | ok d => simp [futureResult_ok, ASSERT_ERROR]
    | error e =>
      obtain ⟨ms, hms⟩ := futureResult_error self "" ([] : Table T) e w
      simp only [app_bind_apply, futureResult_ok, hms]
      unfold ASSERT_ERROR
      by_cases hm : e.Message = "" <;> simp [hm, Except.map]
  | error e1 =>
    obtain ⟨ms, hms⟩ := futureResult_error self "" ([] : Table T) e1 w
    cases rd with
    | ok d =>
      simp only [app_bind_apply, futureResult_ok, hms]
      unfold ASSERT_ERROR
      by_cases hm : e1.Message = "" <;> simp [hm, Except.map]
    | error e2 =>
      obtain ⟨ms2, hms2⟩ := futureResult_error self
        ((if ("" : String) ≠ "" then "" ++ " | " else "") ++ e1.Message) ([] : Table T) e2
        { w with msgs := w.msgs ++ ms }
      simp only [app_bind_apply, hms, hms2]
      unfold ASSERT_ERROR
      simp only [ne_eq, not_true_eq_false, if_false, String.empty_append]
      split_ifs <;> simp_all [Except.map]

theorem loadCSVFilesFrom_frame {σ T : Type} (self : MainApplication)
    (rq rd : Except CAssertException (Table T)) (w : World σ T) :
    ∃ ms, (loadCSVFilesFrom self rq rd w).2 = { w with msgs := w.msgs ++ ms } := by
  cases hp : self.m_executeParallel
  · rw [loadCSVFilesFrom_sequential self rq rd w hp]
    cases rq <;> cases rd <;> exact ⟨[], by simp⟩
  · rw [loadCSVFilesFrom_parallel_unfold self rq rd hp]
    have h1 : ∃ ms r, futureResult self "" ([] : Table T) rq w
        = (.ok r, { w with msgs := w.msgs ++ ms }) := by
      cases rq with
      | ok q => exact ⟨[], (q, ""), by rw [futureResult_ok]; simp⟩
      | error e =>
        obtain ⟨ms, hms⟩ := futureResult_error self "" ([] : Table T) e w
        exact ⟨ms, _, hms⟩
    obtain ⟨ms1, r1, hr1⟩ := h1
    have h2 : ∃ ms r, futureResult self r1.2 ([] : Table T) rd { w with msgs := w.msgs ++ ms1 }
        = (.ok r, { w with msgs := w.msgs ++ ms1 ++ ms }) := by
      cases rd with
      | ok d => exact ⟨[], (d, r1.2), by rw [futureResult_ok]; simp⟩
      | error e =>
        obtain ⟨ms, hms⟩ := futureResult_error self r1.2 ([] : Table T) e
          { w with msgs := w.msgs ++ ms1 }
        exact ⟨ms, _, hms⟩
    obtain ⟨ms2, r2, hr2⟩ := h2
    refine ⟨ms1 ++ ms2, ?_⟩
    simp only [app_bind_apply, hr1, hr2, app_lift_apply]
    unfold ASSERT_ERROR
    split_ifs <;> simp

/-- C9 (amended). In sequential mode `loadCSVFiles` surfaces the exception of
the first failing load, query before data set, unchanged. In parallel mode it
joins both loads before it throws: when exactly one load fails, with a
non-empty message, the error carries exactly that message; when both fail,
the first with a non-empty message, the error carries the two messages
joined as the query message, " | ", the data set message. -/
theorem loadCSVFiles_error_message {σ T : Type} (env : Env σ T) (self : MainApplication)
    (w : World σ T) :
    (self.m_executeParallel = false →
        (∀ e, load env self 0 self.m_queryCSVFile = .error e →
          (loadCSVFiles env self w).1 = .error e)
      ∧ (∀ q e, load env self 0 self.m_queryCSVFile = .ok q →
          load env self 1 self.m_dataSetCSVFile = .error e →
          (loadCSVFiles env self w).1 = .error e))
    ∧ (self.m_executeParallel = true →
        (∀ e d, load env self 0 self.m_queryCSVFile = .error e →
          load env self 1 self.m_dataSetCSVFile = .ok d → e.Message ≠ "" →
          ∃ x, (loadCSVFiles env self w).1 = .error x ∧ x.Message = e.Message)
      ∧ (∀ q e, load env self 0 self.m_queryCSVFile = .ok q →
          load env self 1 self.m_dataSetCSVFile = .error e → e.Message ≠ "" →
          ∃ x, (loadCSVFiles env self w).1 = .error x ∧ x.Message = e.Message)
      ∧ (∀ e1 e2, load env self 0 self.m_queryCSVFile = .error e1 →
          load env self 1 self.m_dataSetCSVFile = .error e2 → e1.Message ≠ "" →
          ∃ x, (loadCSVFiles env self w).1 = .error x
            ∧ x.Message = e1.Message ++ " | " ++ e2.Message)) := by
  unfold loadCSVFiles
  constructor
  · intro hseq
    rw [loadCSVFilesFrom_sequential self _ _ w hseq]
    constructor
    · intro e he
      rw [he]
    · intro q e hq he
      rw [hq, he]
  · intro hpar
    rw [loadCSVFilesFrom_parallel self _ _ w hpar]
    refine ⟨?_, ?_, ?_⟩
    · intro e d he hd hne
      rw [he, hd]
      simp [ASSERT_ERROR, hne, Except.map]
    · intro q e hq he hne
      rw [hq, he]
      simp [ASSERT_ERROR, hne, Except.map]
    · intro e1 e2 h1 h2 hne
      rw [h1, h2]
      have hcat : ¬ (e1.Message ++ " | " ++ e2.Message = "") := by
        intro h
        have hd := congrArg String.data h
        simp only [String.data_append] at hd
        have hd1 : e1.Message.data = [] := by
          cases hl : e1.Message.data with
          | nil => rfl
          | cons c cs => rw [hl] at hd; simp at hd
        exact hne (String.ext hd1)
      simp [ASSERT_ERROR, hne, hcat, Except.map]

/-- Two unreadable files loaded in parallel. -/
theorem loadCSVFiles_error_message_witness :
    ∃ x, (loadCSVFiles (sampleEnv true []) (sampleParallelApp "q.csv" "d.csv")
            (World.init ())).1 = .error x
      ∧ x.Message = (sampleFailure "bad q.csv").Message ++ " | "
          ++ (sampleFailure "bad d.csv").Message :=
  ((loadCSVFiles_error_message (sampleEnv true []) (sampleParallelApp "q.csv" "d.csv")
      (World.init ())).2 rfl).2.2
    (sampleFailure "bad q.csv") (sampleFailure "bad d.csv") (by decide) (by decide)
    (by decide)

/-- C9 as worded fails in parallel mode when both loads fail: the error that
`loadCSVFiles` surfaces carries "bad q.csv | bad d.csv", the two messages
joined, and not the message "bad q.csv" of the first failing load. -/
theorem loadCSVFiles_parallel_counterexample :
    (sampleParallelApp "q.csv" "d.csv").m_executeParallel = true
    ∧ load (sampleEnv true []) (sampleParallelApp "q.csv" "d.csv") 0 "q.csv"
        = .error (sampleFailure "bad q.csv")
    ∧ load (sampleEnv true []) (sampleParallelApp "q.csv" "d.csv") 1 "d.csv"
        = .error (sampleFailure "bad d.csv")
    ∧ (loadCSVFiles (sampleEnv true []) (sampleParallelApp "q.csv" "d.csv")
        (World.init ())).1
        = .error { Message := "bad q.csv | bad d.csv", FileName := sourceFile,
                   LineNumber := 291, Function := "loadCSVFiles",
                   Expression := "errorMessage.empty()" }
    ∧ ("bad q.csv | bad d.csv" : String) ≠ (sampleFailure "bad q.csv").Message := by
  decide

/-! ## The steps of `run` -/

@[simp] theorem app_mpiCall_apply {σ T α : Type} (f : σ → Except CAssertException (α × σ))
    (w : World σ T) :
    (App.mpiCall f : App σ T α) w
      = match f w.mpi with
        | .ok (a, s) => (.ok a, { w with mpi := s })
        | .error e => (.error e, w) := rfl

@[simp] theorem app_mpiDo_apply {σ T : Type} (f : σ → Except CAssertException σ)
    (w : World σ T) :
    (App.mpiDo f : App σ T Unit) w
      = match f w.mpi with
        | .ok s => (.ok (), { w with mpi := s })
        | .error e => (.error e, w) := rfl

theorem createDistanceCalculator_eq {σ T : Type} (env : Env σ T) (self : MainApplication) :
    createDistanceCalculator env self = env.computeDistance self.m_executeParallel := by
  unfold createDistanceCalculator
  cases self.m_executeParallel <;> rfl

theorem showSummary_eval {σ T : Type} (env : Env σ T) (self : MainApplication)
    (w : World σ T) :
    ∃ ms, showSummary env self w = (.ok (), { w with msgs := w.msgs ++ ms }) := by
  unfold showSummary
  cases self.m_dbg
  · exact ⟨_, by simp; rfl⟩
  · exact ⟨_, by simp; rfl⟩

theorem checkArguments_world {σ T : Type} (env : Env σ T) (self : MainApplication)
    (w : World σ T) :
    ∃ ms, (checkArguments env self w).2 = { w with msgs := w.msgs ++ ms } := by
  unfold checkArguments
  simp only [app_bind_apply, msg_write_apply, app_lift_apply, ASSERT_ERROR]
  split_ifs
  all_goals first
    | exact ⟨[(MsgType.Info, "Analyze parameters.")], rfl⟩
    | exact ⟨[(MsgType.Info, "Analyze parameters."), (MsgType.Warning, equalPathsWarning)],
        by simp⟩

theorem obtainInputs_worker {σ T : Type} (env : Env σ T) (self : MainApplication)
    (w : World σ T) (hmain : env.isMain = false) :
    obtainInputs env self w
      = match env.receiveQuery w.mpi with
        | .error e => (.error e, { w with trace := w.trace ++ [Action.receiveQuery] })
        | .ok (q, s1) =>
          match env.receiveDataSet s1 with
          | .error e =>
            (.error e, { w with
              mpi := s1, trace := w.trace ++ [Action.receiveQuery, Action.receiveDataSet] })
          | .ok (d, s2) =>
            (.ok (q, d), { w with
              mpi := s2, trace := w.trace ++ [Action.receiveQuery, Action.receiveDataSet] }) := by
  unfold obtainInputs
  simp only [hmain, Bool.false_eq_true, if_false, app_bind_apply, app_act_apply,
    app_mpiCall_apply, app_pure_apply]
  cases h1 : env.receiveQuery w.mpi with
  | error e => rfl
  | ok r =>
    obtain ⟨q, s1⟩ := r
    simp only []
    cases h2 : env.receiveDataSet s1 with
    | error e => simp
    | ok r2 =>
      obtain ⟨d, s2⟩ := r2
      simp

theorem computeAndEmit_main {σ T : Type} (env : Env σ T) (self : MainApplication)
    (q d : Table T) (w : World σ T) (hmain : env.isMain = true) :
    computeAndEmit env self q d w
      = match metricToEnum self.m_strMetric with
        | .error e => (.error e, w)
        | .ok m =>
          match env.computeDistance self.m_executeParallel q d m with
          | .error e =>
            (.error e, { w with trace := w.trace ++ [Action.computeDistance q d m] })
          | .ok dm =>
            match env.sendDistanceMatrix w.mpi dm with
            | .error e =>
              (.error e, { w with
                trace := w.trace ++ [Action.computeDistance q d m,
                  Action.sendDistanceMatrix dm] })
            | .ok s =>
              match env.receiveDistanceMatrix s with
              | .error e =>
                (.error e, { w with
                  mpi := s,
                  trace := w.trace ++ [Action.computeDistance q d m,
                    Action.sendDistanceMatrix dm, Action.receiveDistanceMatrix] })
              | .ok (full, s1) =>
                if self.m_outFile = "" then
                  (.ok (), { w with
                    mpi := s1,
                    trace := w.trace ++ [Action.computeDistance q d m,
                      Action.sendDistanceMatrix dm, Action.receiveDistanceMatrix,
                      Action.displayResult full],
                    msgs := w.msgs ++ [(MsgType.Info, displayText env.render full),
                      (MsgType.Info, successMessage)] })
                else
                  (.ok (), { w with
                    mpi := s1,
                    trace := w.trace ++ [Action.computeDistance q d m,
                      Action.sendDistanceMatrix dm, Action.receiveDistanceMatrix,
                      Action.writeCSV full],
                    msgs := w.msgs ++ [(MsgType.Info, "The output file: " ++ self.m_outFile),
                      (MsgType.Info, successMessage)],
                    outFile := fstreamOut env self.m_outFile (csvText env.render full)
                      w.outFile }) := by
  unfold computeAndEmit computeDistances
  rw [createDistanceCalculator_eq]
  simp only [hmain, if_true, app_bind_apply, app_act_apply,
    app_mpiDo_apply, app_mpiCall_apply, app_pure_apply, app_lift_apply, msg_write_apply]
  cases h1 : metricToEnum self.m_strMetric with
  | error e => rfl
  | ok m =>
    simp only []
    cases h2 : env.computeDistance self.m_executeParallel q d m with
    | error e => rfl
    | ok dm =>
      simp only []
      cases h3 : env.sendDistanceMatrix w.mpi dm with
      | error e => simp
      | ok s =>
        simp only []
        cases h4 : env.receiveDistanceMatrix s with
        | error e => simp
        | ok r =>
          obtain ⟨full, s1⟩ := r
          by_cases hout : self.m_outFile = ""
          · simp [hout, displayResult_eval, successMessage]
          · simp [hout, writeCSV_eval, successMessage]

theorem loadCSVFiles_result_indep {σ T : Type} (env : Env σ T) (self : MainApplication)
    (w w0 : World σ T) :
    (loadCSVFiles env self w).1 = (loadCSVFiles env self w0).1 := by
  unfold loadCSVFiles
  cases hp : self.m_executeParallel
  · rw [loadCSVFilesFrom_sequential self _ _ w hp, loadCSVFilesFrom_sequential self _ _ w0 hp]
    cases load env self 0 self.m_queryCSVFile <;> cases load env self 1 self.m_dataSetCSVFile
      <;> rfl
  · rw [loadCSVFilesFrom_parallel self _ _ w hp, loadCSVFilesFrom_parallel self _ _ w0 hp]

theorem obtainInputs_main {σ T : Type} (env : Env σ T) (self : MainApplication)
    (w : World σ T) (hmain : env.isMain = true) :
    ∃ ms, obtainInputs env self w
      = match (loadCSVFiles env self w).1 with
        | .error e =>
          (.error e, { w with
            trace := w.trace ++ [Action.loadCSVFiles], msgs := w.msgs ++ ms })
        | .ok (q, d) =>
          match env.distributeTask w.mpi q d with
          | .error e =>
            (.error e, { w with
              trace := w.trace ++ [Action.loadCSVFiles, Action.distributeTask q d],
              msgs := w.msgs ++ ms })
          | .ok s =>
            match env.receiveQuery s with
            | .error e =>
              (.error e, { w with
                mpi := s,
                trace := w.trace ++ [Action.loadCSVFiles, Action.distributeTask q d,
                  Action.receiveQuery],
                msgs := w.msgs ++ ms })
            | .ok (chunk, s1) =>
              (.ok (chunk, d), { w with
                mpi := s1,
                trace := w.trace ++ [Action.loadCSVFiles, Action.distributeTask q d,
                  Action.receiveQuery],
                msgs := w.msgs ++ ms }) := by
  obtain ⟨ms, hms⟩ := loadCSVFilesFrom_frame self (load env self 0 self.m_queryCSVFile)
    (load env self 1 self.m_dataSetCSVFile)
    ({ w with trace := w.trace ++ [Action.loadCSVFiles] } : World σ T)
  have hres := loadCSVFiles_result_indep env self
    ({ w with trace := w.trace ++ [Action.loadCSVFiles] } : World σ T) w
  have hload : loadCSVFiles env self
      ({ w with trace := w.trace ++ [Action.loadCSVFiles] } : World σ T)
      = ((loadCSVFiles env self w).1,
          { w with trace := w.trace ++ [Action.loadCSVFiles], msgs := w.msgs ++ ms }) :=
    Prod.ext hres hms
  refine ⟨ms, ?_⟩
  unfold obtainInputs
  simp only [hmain, if_true, app_bind_apply, app_act_apply, app_mpiDo_apply,
    app_mpiCall_apply, app_pure_apply, hload]
  cases h0 : (loadCSVFiles env self w).1 with
  | error e => rfl
  | ok r =>
    obtain ⟨q, d⟩ := r
    simp only []
    cases h1 : env.distributeTask w.mpi q d with
    | error e => simp
    | ok s =>
      simp only []
      cases h2 : env.receiveQuery s with
      | error e => simp
      | ok r2 =>
        obtain ⟨chunk, s1⟩ := r2
        simp

/-! ## The run as a whole -/

theorem parse_snd {σ T : Type} (env : Env σ T) (cli : CommandLine) :
    (parseAndInitParameters env MainApplication.constructed cli).2 = !cli.parsedHelp := by
  unfold parseAndInitParameters
  cases cli.parsedHelp <;> rfl

theorem members_metric {σ T : Type} (env : Env σ T) (cli : CommandLine) :
    (members env cli).m_strMetric = cli.strMetric := by
  unfold members parseAndInitParameters
  cases cli.parsedHelp <;> rfl

theorem members_parallel {σ T : Type} (env : Env σ T) (cli : CommandLine) :
    (members env cli).m_executeParallel = cli.executeParallel := by
  unfold members parseAndInitParameters
  cases cli.parsedHelp <;> rfl

theorem members_dbg {σ T : Type} (env : Env σ T) (cli : CommandLine) :
    (members env cli).m_dbg = cli.dbg := by
  unfold members parseAndInitParameters
  cases cli.parsedHelp <;> rfl

theorem run_eq {σ T : Type} (env : Env σ T) (cli : CommandLine) (w : World σ T) :
    run env cli w
      = match tryBlock env (members env cli) (!cli.parsedHelp) w with
        | (.ok (some code), w1) => (code, w1)
        | (.ok none, w1) => (0, w1)
        | (.error e, w1) =>
          (0, ((uncoverException (members env cli) e >>= fun _ =>
                  Msg.Write e.Message .Error : App σ T Unit) w1).2) := by
  unfold run members
  rw [← parse_snd env cli]

theorem tryBlock_help {σ T : Type} (env : Env σ T) (self : MainApplication) (w : World σ T) :
    tryBlock env self false w = (.ok (some 0), w) := rfl

theorem tryBlock_eval {σ T : Type} (env : Env σ T) (self : MainApplication) (w : World σ T) :
    ∃ ms, tryBlock env self true w
      = match (checkArguments env self w).1 with
        | .error e => (.error e, { w with msgs := w.msgs ++ ms })
        | .ok _ =>
          match obtainInputs env self { w with msgs := w.msgs ++ ms } with
          | (.error e, w3) => (.error e, w3)
          | (.ok qd, w3) =>
            match computeAndEmit env self qd.1 qd.2 w3 with
            | (.error e, w4) => (.error e, w4)
            | (.ok _, w4) => (.ok none, w4) := by
  obtain ⟨ms1, h1⟩ := checkArguments_world env self w
  cases hc : (checkArguments env self w).1 with
  | error e =>
    refine ⟨ms1, ?_⟩
    have hca : checkArguments env self w = (.error e, { w with msgs := w.msgs ++ ms1 }) :=
      Prod.ext hc h1
    unfold tryBlock
    simp [hca]
  | ok u =>
    obtain ⟨ms2, h2⟩ := showSummary_eval env self ({ w with msgs := w.msgs ++ ms1 } : World σ T)
    refine ⟨ms1 ++ ms2, ?_⟩
    have hca : checkArguments env self w = (.ok u, { w with msgs := w.msgs ++ ms1 }) :=
      Prod.ext hc h1
    unfold tryBlock
    simp only [Bool.not_true, Bool.false_eq_true, if_false, app_bind_apply, hca, h2,
      List.append_assoc]
    cases h3 : obtainInputs env self { w with msgs := w.msgs ++ (ms1 ++ ms2) } with
    | mk r w3 =>
      cases r with
      | error e => rfl
      | ok qd =>
        obtain ⟨q, d⟩ := qd
        simp only []
        cases h4 : computeAndEmit env self q d w3 with
        | mk r4 w4 =>
          cases r4 with
          | error e => rfl
          | ok u4 => rfl

theorem uncoverException_diag {σ T : Type} (self : MainApplication) (e : CAssertException)
    (w : World σ T) :
    ∃ diag, uncoverException self e w = (.ok (), { w with msgs := w.msgs ++ diag })
      ∧ (∀ m ∈ diag, m.1 = MsgType.Error)
      ∧ (self.m_dbg = false → diag = []) := by
  unfold uncoverException
  cases hd : self.m_dbg
  · exact ⟨[], by simp, by simp, fun _ => rfl⟩
  · refine ⟨[(MsgType.Error, diagnosticText e)], ?_, ?_, ?_⟩
    · simp only [Bool.not_true, Bool.false_eq_true, if_false, msg_write_apply]
    · simp
    · intro h; cases h

theorem run_handler {σ T : Type} (self : MainApplication) (e : CAssertException)
    (w : World σ T) :
    ∃ diag, ((uncoverException self e >>= fun _ =>
                Msg.Write e.Message .Error : App σ T Unit) w).2
        = { w with msgs := w.msgs ++ diag ++ [(MsgType.Error, e.Message)] }
      ∧ (∀ m ∈ diag, m.1 = MsgType.Error)
      ∧ (self.m_dbg = false → diag = []) := by
  obtain ⟨diag, h1, h2, h3⟩ := uncoverException_diag self e w
  refine ⟨diag, ?_, h2, h3⟩
  simp only [app_bind_apply, h1, msg_write_apply]

theorem tryBlock_code {σ T : Type} (env : Env σ T) (self : MainApplication) (parsed : Bool)
    (w : World σ T) (code : Int)
    (h : (tryBlock env self parsed w).1 = .ok (some code)) : code = 0 := by
  cases parsed with
  | false =>
    rw [tryBlock_help] at h
    simpa using h.symm
  | true =>
    obtain ⟨ms, hms⟩ := tryBlock_eval env self w
    rw [hms] at h
    split at h
    · cases h
    · split at h
      · cases h
      · split at h <;> cases h

theorem run_world {σ T : Type} (env : Env σ T) (cli : CommandLine) (w : World σ T) :
    ∃ ms, (run env cli w).2
      = { (tryBlock env (members env cli) (!cli.parsedHelp) w).2 with
          msgs := (tryBlock env (members env cli) (!cli.parsedHelp) w).2.msgs ++ ms } := by
  rw [run_eq]
  cases h : tryBlock env (members env cli) (!cli.parsedHelp) w with
  | mk r w1 =>
    cases r with
    | error e =>
      obtain ⟨diag, hd, _, _⟩ := run_handler (members env cli) e w1
      refine ⟨diag ++ [(MsgType.Error, e.Message)], ?_⟩
      simp only []
      rw [hd, List.append_assoc]
    | ok c =>
      cases c <;> exact ⟨[], by simp⟩

theorem run_trace {σ T : Type} (env : Env σ T) (cli : CommandLine) (w : World σ T) :
    (run env cli w).2.trace = (tryBlock env (members env cli) (!cli.parsedHelp) w).2.trace := by
  obtain ⟨ms, h⟩ := run_world env cli w
  rw [h]

theorem run_outFile {σ T : Type} (env : Env σ T) (cli : CommandLine) (w : World σ T) :
    (run env cli w).2.outFile
      = (tryBlock env (members env cli) (!cli.parsedHelp) w).2.outFile := by
  obtain ⟨ms, h⟩ := run_world env cli w
  rw [h]

theorem run_handler_of_error {σ T : Type} (env : Env σ T) (cli : CommandLine)
    (w : World σ T) :
    ∀ e w1, tryBlock env (members env cli) (!cli.parsedHelp) w = (.error e, w1) →
      ∃ diag, (run env cli w).2
          = { w1 with msgs := w1.msgs ++ diag ++ [(MsgType.Error, e.Message)] }
        ∧ (∀ m ∈ diag, m.1 = MsgType.Error)
        ∧ (cli.dbg = false → diag = []) := by
  intro e w1 h
  obtain ⟨diag, hd, h2, h3⟩ := run_handler (members env cli) e w1
  refine ⟨diag, ?_, h2, ?_⟩
  · rw [run_eq, h]
    exact hd
  · rw [← members_dbg env cli]
    exact h3

theorem run_handler_exact {σ T : Type} (env : Env σ T) (cli : CommandLine)
    (w : World σ T) (e : CAssertException) (w1 : World σ T)
    (h : tryBlock env (members env cli) (!cli.parsedHelp) w = (.error e, w1)) :
    (run env cli w).2
      = { w1 with
          msgs := w1.msgs
            ++ (if cli.dbg = true then [(MsgType.Error, diagnosticText e)] else [])
            ++ [(MsgType.Error, e.Message)] } := by
  rw [run_eq, h]
  simp only [app_bind_apply]
  unfold uncoverException
  rw [members_dbg]
  cases cli.dbg <;> simp

/-- C3 (amended). `run` returns the exit code 0 on every path: on success, on
help, and also when a fatal condition occurs. In that last case the only
thing it adds to the world the `try` block left is, in this order: when debug
mode is on, one message on the error channel with the file, line, function,
expression and message of the failed assertion; and then, in either mode, the
error message itself on the error channel. -/
theorem run_exit_code_zero {σ T : Type} (env : Env σ T) (cli : CommandLine)
    (w : World σ T) :
    (run env cli w).1 = 0
    ∧ (∀ e w1, tryBlock env (members env cli) (!cli.parsedHelp) w = (.error e, w1) →
        (run env cli w).2
          = { w1 with
              msgs := w1.msgs
                ++ (if cli.dbg = true then
                      [(MsgType.Error,
                        "\n"
                          ++ "  [file]:         " ++ e.FileName ++ "\n"
                          ++ "  [line]:         " ++ toString e.LineNumber ++ "\n"
                          ++ "  [function]:     " ++ e.Function ++ "\n"
                          ++ "  [expression]:   " ++ e.Expression ++ "\n"
                          ++ "  [what]:         " ++ e.Message ++ "\n"
                          ++ "\n")]
                    else [])
                ++ [(MsgType.Error, e.Message)] })
    ∧ (∀ e w1, tryBlock env (members env cli) (!cli.parsedHelp) w = (.error e, w1) →
        (run env cli w).2.msgs.getLast? = some (MsgType.Error, e.Message)) := by
  refine ⟨?_, ?_, ?_⟩
  · rw [run_eq]
    cases h : tryBlock env (members env cli) (!cli.parsedHelp) w with
    | mk r w1 =>
      cases r with
      | error e => rfl
      | ok c =>
        cases c with
        | none => rfl
        | some code =>
          have hc := tryBlock_code env (members env cli) (!cli.parsedHelp) w code (by rw [h])
          simpa using hc
  · intro e w1 h
    exact run_handler_exact env cli w e w1 h
  · intro e w1 h
    rw [run_handler_exact env cli w e w1 h]
    simp

/-- The metric name "L3" on the main rank, in debug mode. -/
theorem run_exit_code_zero_witness :
    (tryBlock (sampleEnv true []) (members (sampleEnv true []) (sampleDebugCli "L3"))
        (!(sampleDebugCli "L3").parsedHelp) (World.init ())).1
      = .error (invalidMetric "L3")
    ∧ (run (sampleEnv true []) (sampleDebugCli "L3") (World.init ())).1 = 0
    ∧ (run (sampleEnv true []) (sampleDebugCli "L3") (World.init ())).2.msgs.getLast?
        = some (MsgType.Error, (invalidMetric "L3").Message)
    ∧ (run (sampleEnv true []) (sampleDebugCli "L3") (World.init ())).2.msgs.drop
          (tryBlock (sampleEnv true []) (members (sampleEnv true []) (sampleDebugCli "L3"))
            (!(sampleDebugCli "L3").parsedHelp) (World.init ())).2.msgs.length
        = [(MsgType.Error,
              "\n  [file]:         MainApplication.cc\n  [line]:         43\n"
                ++ "  [function]:     metricToEnum\n"
                ++ "  [expression]:   search != s_mapNameToEnum.end()\n"
                ++ "  [what]:         Invalid math metric name: L3\n\n"),
           (MsgType.Error, "Invalid math metric name: L3")] :=
  ⟨by decide,
   (run_exit_code_zero (sampleEnv true []) (sampleDebugCli "L3") (World.init ())).1,
   (run_exit_code_zero (sampleEnv true []) (sampleDebugCli "L3") (World.init ())).2.2
     (invalidMetric "L3") _ (Prod.ext (by decide) rfl),
   by
     rw [(run_exit_code_zero (sampleEnv true []) (sampleDebugCli "L3") (World.init ())).2.1
       (invalidMetric "L3") _ (Prod.ext (by decide) rfl)]
     simp only [List.append_assoc, List.drop_left]
     rfl⟩

/-- C3 as worded fails for the metric name "L3": the `try` block of `run` ends
in the fatal error "Invalid math metric name: L3", the message is written on
the error channel, and the exit code is 0, not a non-zero code. -/
theorem run_exit_code_counterexample :
    (tryBlock (sampleEnv true []) (members (sampleEnv true []) (sampleCli "" "" "" "L3"))
        (!(sampleCli "" "" "" "L3").parsedHelp) (World.init ())).1
      = .error (invalidMetric "L3")
    ∧ (run (sampleEnv true []) (sampleCli "" "" "" "L3") (World.init ())).2.msgs.getLast?
      = some (MsgType.Error, "Invalid math metric name: L3")
    ∧ (run (sampleEnv true []) (sampleCli "" "" "" "L3") (World.init ())).1 = 0
    ∧ ¬ ((run (sampleEnv true []) (sampleCli "" "" "" "L3") (World.init ())).1 ≠ 0) := by
  decide

/-! ## Unknown metric -/

theorem obtainInputs_trace {σ T : Type} (env : Env σ T) (self : MainApplication)
    (w : World σ T) :
    ∃ l, (obtainInputs env self w).2.trace = w.trace ++ l
      ∧ (∀ a ∈ l, a.step = Step.ingest ∨ a.step = Step.distribute
          ∨ a.step = Step.recvQuery ∨ a.step = Step.recvDataSet)
      ∧ (obtainInputs env self w).2.outFile = w.outFile := by
  cases hmain : env.isMain
  · rw [obtainInputs_worker env self w hmain]
    split
    · exact ⟨_, rfl, by simp [Action.step], rfl⟩
    · split
      · exact ⟨_, rfl, by simp [Action.step], rfl⟩
      · exact ⟨_, rfl, by simp [Action.step], rfl⟩
  · obtain ⟨ms, hms⟩ := obtainInputs_main env self w hmain
    rw [hms]
    split
    · exact ⟨_, rfl, by simp [Action.step], rfl⟩
    · split
      · exact ⟨_, rfl, by simp [Action.step], rfl⟩
      · split
        · exact ⟨_, rfl, by simp [Action.step], rfl⟩
        · exact ⟨_, rfl, by simp [Action.step], rfl⟩

theorem metricToEnum_unknown (s : String)
    (hm : s ≠ "L1" ∧ s ≠ "L2" ∧ s ≠ "Hamming") :
    metricToEnum s = .error (invalidMetric s) := by
  rw [metricToEnum_eval]
  simp [hm.1, hm.2.1, hm.2.2]

theorem computeDistances_unknown {σ T : Type} (env : Env σ T) (self : MainApplication)
    (q d : Table T) (w : World σ T)
    (hm : self.m_strMetric ≠ "L1" ∧ self.m_strMetric ≠ "L2" ∧ self.m_strMetric ≠ "Hamming") :
    computeDistances env self q d w = (.error (invalidMetric self.m_strMetric), w) := by
  unfold computeDistances
  simp [metricToEnum_unknown _ hm]

theorem computeAndEmit_unknown {σ T : Type} (env : Env σ T) (self : MainApplication)
    (q d : Table T) (w : World σ T)
    (hm : self.m_strMetric ≠ "L1" ∧ self.m_strMetric ≠ "L2" ∧ self.m_strMetric ≠ "Hamming") :
    computeAndEmit env self q d w = (.error (invalidMetric self.m_strMetric), w) := by
  unfold computeAndEmit
  simp [computeDistances_unknown env self q d w hm]

theorem tryBlock_unknown {σ T : Type} (env : Env σ T) (self : MainApplication) (s0 : σ)
    (hm : self.m_strMetric ≠ "L1" ∧ self.m_strMetric ≠ "L2" ∧ self.m_strMetric ≠ "Hamming") :
    (∃ e, (tryBlock env self true (World.init s0)).1 = .error e)
    ∧ (∀ a ∈ (tryBlock env self true (World.init s0)).2.trace,
        a.step = Step.ingest ∨ a.step = Step.distribute
          ∨ a.step = Step.recvQuery ∨ a.step = Step.recvDataSet)
    ∧ (tryBlock env self true (World.init s0)).2.outFile = none := by
  obtain ⟨ms, hms⟩ := tryBlock_eval env self (World.init s0 : World σ T)
  rw [hms]
  cases hc : (checkArguments env self (World.init s0 : World σ T)).1 with
  | error e => exact ⟨⟨e, rfl⟩, by simp [World.init], rfl⟩
  | ok u =>
    simp only []
    obtain ⟨l, hl, hsteps, hout⟩ := obtainInputs_trace env self
      ({ (World.init s0 : World σ T) with msgs := (World.init s0 : World σ T).msgs ++ ms })
    cases ho : obtainInputs env self
        ({ (World.init s0 : World σ T) with
            msgs := (World.init s0 : World σ T).msgs ++ ms }) with
    | mk r w3 =>
      rw [ho] at hl hout
      have hl1 : w3.trace = l := by simpa [World.init] using hl
      have hout1 : w3.outFile = none := by simpa [World.init] using hout
      cases r with
      | error e => exact ⟨⟨e, rfl⟩, by simpa [hl1] using hsteps, hout1⟩
      | ok qd =>
        simp only [computeAndEmit_unknown env self qd.1 qd.2 w3 hm]
        exact ⟨⟨_, rfl⟩, by simpa [hl1] using hsteps, hout1⟩

theorem tryBlock_unfold {σ T : Type} (env : Env σ T) (self : MainApplication)
    (w w1 w2 : World σ T) (hc : checkArguments env self w = (.ok (), w1))
    (hs : showSummary env self w1 = (.ok (), w2)) :
    tryBlock env self true w
      = match obtainInputs env self w2 with
        | (.error e, w3) => (.error e, w3)
        | (.ok qd, w3) =>
          match computeAndEmit env self qd.1 qd.2 w3 with
          | (.error e, w4) => (.error e, w4)
          | (.ok _, w4) => (.ok none, w4) := by
  unfold tryBlock
  simp only [Bool.not_true, Bool.false_eq_true, if_false, app_bind_apply, hc, hs]
  cases h3 : obtainInputs env self w2 with
  | mk r w3 =>
    cases r with
    | error e => rfl
    | ok qd =>
      obtain ⟨q, d⟩ := qd
      simp only []
      cases h4 : computeAndEmit env self q d w3 with
      | mk r4 w4 =>
        cases r4 with
        | error e => rfl
        | ok u4 => rfl

/-- C4. With a metric name other than "L1", "L2" and "Hamming", on every rank:
`computeDistances` throws the error "Invalid math metric name: ..." without
calling the kernel; no action of `run` is a kernel call, a send or a gather of
a distance matrix, or an emit, and nothing is written to the output file;
unless help was asked for, the `try` block ends in a fatal error whose message
is written on the error channel; and when validation passes and the rank has
obtained its inputs, that error is the metric error, thrown in the very world
in which the inputs were obtained. -/
theorem unknown_metric_fatal_before_compute {σ T : Type} (env : Env σ T)
    (cli : CommandLine) (s0 : σ)
    (hm : cli.strMetric ≠ "L1" ∧ cli.strMetric ≠ "L2" ∧ cli.strMetric ≠ "Hamming") :
    (∀ q d (w : World σ T), computeDistances env (members env cli) q d w
        = (.error (invalidMetric cli.strMetric), w))
    ∧ (∀ a ∈ (run env cli (World.init s0)).2.trace,
        a.step ≠ Step.compute ∧ a.step ≠ Step.send ∧ a.step ≠ Step.gather
          ∧ a.step ≠ Step.emitStdout ∧ a.step ≠ Step.emitFile)
    ∧ (run env cli (World.init s0)).2.outFile = none
    ∧ (cli.parsedHelp = false →
        ∃ e, (tryBlock env (members env cli) true (World.init s0)).1 = .error e
          ∧ (run env cli (World.init s0)).2.msgs.getLast? = some (MsgType.Error, e.Message))
    ∧ (∀ q d w3, cli.parsedHelp = false →
        (checkArguments env (members env cli) (World.init s0)).1 = .ok () →
        obtainInputs env (members env cli)
            (showSummary env (members env cli)
              (checkArguments env (members env cli) (World.init s0)).2).2 = (.ok (q, d), w3) →
        tryBlock env (members env cli) true (World.init s0)
          = (.error (invalidMetric cli.strMetric), w3)) := by
  have hm1 : (members env cli).m_strMetric ≠ "L1" ∧ (members env cli).m_strMetric ≠ "L2"
      ∧ (members env cli).m_strMetric ≠ "Hamming" := by
    rw [members_metric]; exact hm
  obtain ⟨herr, hsteps, hout⟩ := tryBlock_unknown env (members env cli) s0 hm1
  refine ⟨?_, ?_, ?_, ?_, ?_⟩
  · intro q d w
    rw [computeDistances_unknown env (members env cli) q d w hm1, members_metric]
  · intro a ha
    rw [run_trace] at ha
    cases hh : cli.parsedHelp with
    | true =>
      rw [hh] at ha
      simp [tryBlock_help, World.init] at ha
    | false =>
      rw [hh] at ha
      rcases hsteps a ha with h | h | h | h <;> simp [h]
  · rw [run_outFile]
    cases hh : cli.parsedHelp with
    | true => rfl
    | false => exact hout
  · intro hh
    obtain ⟨e, he⟩ := herr
    refine ⟨e, he, ?_⟩
    obtain ⟨diag, hd, _, _⟩ := (run_handler_of_error env cli (World.init s0)) e
      (tryBlock env (members env cli) true (World.init s0)).2
      (by rw [hh]; exact Prod.ext he rfl)
    rw [hd]
    simp
  · intro q d w3 _ hc ho
    obtain ⟨ms, hs⟩ := showSummary_eval env (members env cli)
      (checkArguments env (members env cli) (World.init s0 : World σ T)).2
    rw [hs] at ho
    rw [tryBlock_unfold env (members env cli) (World.init s0) _ _ (Prod.ext hc rfl) hs, ho]
    simp only []
    rw [computeAndEmit_unknown env (members env cli) q d w3 hm1, members_metric]

/-- The metric name "L3" on the main rank, with random tables. -/
theorem unknown_metric_fatal_before_compute_witness :
    ((sampleCli "" "" "" "L3").strMetric ≠ "L1" ∧ (sampleCli "" "" "" "L3").strMetric ≠ "L2"
      ∧ (sampleCli "" "" "" "L3").strMetric ≠ "Hamming")
    ∧ (∀ a ∈ (run (sampleEnv true []) (sampleCli "" "" "" "L3") (World.init ())).2.trace,
        a.step ≠ Step.compute ∧ a.step ≠ Step.send ∧ a.step ≠ Step.gather
          ∧ a.step ≠ Step.emitStdout ∧ a.step ≠ Step.emitFile)
    ∧ (run (sampleEnv true []) (sampleCli "" "" "" "L3") (World.init ())).2.outFile = none :=
  ⟨by decide,
   (unknown_metric_fatal_before_compute (sampleEnv true []) (sampleCli "" "" "" "L3") ()
      (by decide)).2.1,
   (unknown_metric_fatal_before_compute (sampleEnv true []) (sampleCli "" "" "" "L3") ()
      (by decide)).2.2.1⟩

/-! ## The order of the steps -/

theorem tryBlock_main_success {σ T : Type} (env : Env σ T) (self : MainApplication) (s0 : σ)
    (hmain : env.isMain = true)
    (q d chunk dm full : Table T) (s1 s2 s3 s4 : σ) (m : EDistanceMetric)
    (hc : (checkArguments env self (World.init s0)).1 = .ok ())
    (h0 : (loadCSVFiles env self (World.init s0)).1 = .ok (q, d))
    (h1 : env.distributeTask s0 q d = .ok s1)
    (h2 : env.receiveQuery s1 = .ok (chunk, s2))
    (h3 : metricToEnum self.m_strMetric = .ok m)
    (h4 : env.computeDistance self.m_executeParallel chunk d m = .ok dm)
    (h5 : env.sendDistanceMatrix s2 dm = .ok s3)
    (h6 : env.receiveDistanceMatrix s3 = .ok (full, s4)) :
    (tryBlock env self true (World.init s0)).1 = .ok none
    ∧ (tryBlock env self true (World.init s0)).2.trace
        = [Action.loadCSVFiles, Action.distributeTask q d, Action.receiveQuery,
            Action.computeDistance chunk d m, Action.sendDistanceMatrix dm,
            Action.receiveDistanceMatrix,
            if self.m_outFile = "" then Action.displayResult full else Action.writeCSV full]
    ∧ (tryBlock env self true (World.init s0)).2.outFile
        = (if self.m_outFile = "" then none
           else env.fstream self.m_outFile (csvText env.render full))
    ∧ (self.m_outFile = "" →
        (MsgType.Info, displayText env.render full)
          ∈ (tryBlock env self true (World.init s0)).2.msgs) := by
  obtain ⟨ms, hms⟩ := tryBlock_eval env self (World.init s0 : World σ T)
  rw [hms, hc]
  simp only []
  obtain ⟨ms1, hms1⟩ := obtainInputs_main env self
    ({ (World.init s0 : World σ T) with msgs := (World.init s0 : World σ T).msgs ++ ms }) hmain
  rw [hms1, loadCSVFiles_result_indep env self _ (World.init s0), h0]
  simp only [World.init, h1, h2]
  rw [computeAndEmit_main env self chunk d _ hmain]
  simp only [h3, h4, h5, h6]
  by_cases hout : self.m_outFile = ""
  · simp [hout]
  · simp [hout, fstreamOut_none]

/-- C8. On the coordinator rank, in every run in which no step fails
(validation passes, the tables load, and every call of the MPI wrapper and
of the calculator succeeds), `run` performs exactly these actions in this
order: ingest (`loadCSVFiles`), `distributeTask` on the loaded query set and
data set, `receiveQuery`, the kernel on the received chunk and the very data
set that was loaded, `sendDistanceMatrix` of the kernel result,
`receiveDistanceMatrix`, and then one emit of the gathered matrix:
`displayResult` if and only if the output path is empty, else `writeCSV`,
which streams the text of the gathered matrix to the output file; the file
then holds what the unchecked stream delivered, so exactly that text when the
stream opens and takes the writes, and there is no file when it does not
open. -/
theorem coordinator_data_flow {σ T : Type} (env : Env σ T) (cli : CommandLine) (s0 : σ)
    (q d chunk dm full : Table T) (s1 s2 s3 s4 : σ) (m : EDistanceMetric)
    (hmain : env.isMain = true) (hhelp : cli.parsedHelp = false)
    (hc : (checkArguments env (members env cli) (World.init s0)).1 = .ok ())
    (h0 : (loadCSVFiles env (members env cli) (World.init s0)).1 = .ok (q, d))
    (h1 : env.distributeTask s0 q d = .ok s1)
    (h2 : env.receiveQuery s1 = .ok (chunk, s2))
    (h3 : metricToEnum cli.strMetric = .ok m)
    (h4 : env.computeDistance cli.executeParallel chunk d m = .ok dm)
    (h5 : env.sendDistanceMatrix s2 dm = .ok s3)
    (h6 : env.receiveDistanceMatrix s3 = .ok (full, s4)) :
    (run env cli (World.init s0)).2.trace
        = [Action.loadCSVFiles, Action.distributeTask q d, Action.receiveQuery,
            Action.computeDistance chunk d m, Action.sendDistanceMatrix dm,
            Action.receiveDistanceMatrix,
            if (members env cli).m_outFile = "" then Action.displayResult full
            else Action.writeCSV full]
    ∧ (run env cli (World.init s0)).2.outFile
        = (if (members env cli).m_outFile = "" then none
           else env.fstream (members env cli).m_outFile (csvText env.render full))
    ∧ ((members env cli).m_outFile ≠ "" →
        (∀ text, env.fstream (members env cli).m_outFile text = some text) →
        (run env cli (World.init s0)).2.outFile = some (csvText env.render full))
    ∧ ((members env cli).m_outFile = "" →
        (MsgType.Info, displayText env.render full) ∈ (run env cli (World.init s0)).2.msgs)
    ∧ (run env cli (World.init s0)).2.msgs.getLast? = some (MsgType.Info, successMessage)
    ∧ (run env cli (World.init s0)).1 = 0 := by
  rw [← members_metric env cli] at h3
  rw [← members_parallel env cli] at h4
  obtain ⟨hok, htr, hout, hmsg⟩ := tryBlock_main_success env (members env cli) s0 hmain
    q d chunk dm full s1 s2 s3 s4 m hc h0 h1 h2 h3 h4 h5 h6
  have hlast : (tryBlock env (members env cli) true (World.init s0)).2.msgs.getLast?
      = some (MsgType.Info, successMessage) := by
    obtain ⟨ms, hms⟩ := tryBlock_eval env (members env cli) (World.init s0 : World σ T)
    rw [hms, hc]
    simp only []
    obtain ⟨ms1, hms1⟩ := obtainInputs_main env (members env cli)
      ({ (World.init s0 : World σ T) with msgs := (World.init s0 : World σ T).msgs ++ ms })
      hmain
    rw [hms1, loadCSVFiles_result_indep env (members env cli) _ (World.init s0), h0]
    simp only [World.init, h1, h2]
    rw [computeAndEmit_main env (members env cli) chunk d _ hmain]
    simp only [h3, h4, h5, h6]
    by_cases ho : (members env cli).m_outFile = ""
    · simp [ho]
    · simp [ho]
  have hrun : run env cli (World.init s0)
      = (0, (tryBlock env (members env cli) true (World.init s0)).2) := by
    rw [run_eq, hhelp]
    cases ht : tryBlock env (members env cli) true (World.init s0) with
    | mk r w1 =>
      rw [ht] at hok
      simp only [] at hok
      simp only [Bool.not_false, ht, hok]
  rw [hrun]
  refine ⟨htr, hout, ?_, hmsg, hlast, rfl⟩
  intro hne hopen
  simp only [] at hout ⊢
  rw [hout, if_neg hne, hopen]

/-- The coordinator with random tables: writing to `out.csv`, which opens,
and writing to `nodir/out.csv`, which does not. -/
theorem coordinator_data_flow_witness :
    (sampleEnv true []).isMain = true
    ∧ (sampleCli "" "" "out.csv" "L1").parsedHelp = false
    ∧ (run (sampleEnv true []) (sampleCli "" "" "out.csv" "L1") (World.init ())).2.trace
        = [Action.loadCSVFiles, Action.distributeTask [[1, 2], [3, 4]] [[1, 2], [3, 4]],
            Action.receiveQuery,
            Action.computeDistance [[1, 2]] [[1, 2], [3, 4]] EDistanceMetric.L1,
            Action.sendDistanceMatrix [[0]], Action.receiveDistanceMatrix,
            if (members (sampleEnv true []) (sampleCli "" "" "out.csv" "L1")).m_outFile = ""
            then Action.displayResult [[7], [9]] else Action.writeCSV [[7], [9]]]
    ∧ (run (sampleEnv true []) (sampleCli "" "" "out.csv" "L1") (World.init ())).2.outFile
        = some (csvText (sampleEnv true []).render [[7], [9]])
    ∧ csvText (sampleEnv true []).render [[7], [9]] = "7, \n9, \n"
    ∧ (run (sampleEnv true []) (sampleCli "" "" "nodir/out.csv" "L1")
        (World.init ())).2.outFile
        = (if (members (sampleEnv true []) (sampleCli "" "" "nodir/out.csv" "L1")).m_outFile
              = "" then none
           else (sampleEnv true []).fstream
             (members (sampleEnv true []) (sampleCli "" "" "nodir/out.csv" "L1")).m_outFile
             (csvText (sampleEnv true []).render [[7], [9]]))
    ∧ (sampleEnv true []).fstream
        (members (sampleEnv true []) (sampleCli "" "" "nodir/out.csv" "L1")).m_outFile
        (csvText (sampleEnv true []).render [[7], [9]]) = none :=
  ⟨rfl, rfl,
   (coordinator_data_flow (sampleEnv true []) (sampleCli "" "" "out.csv" "L1") ()
      [[1, 2], [3, 4]] [[1, 2], [3, 4]] [[1, 2]] [[0]] [[7], [9]] () () () ()
      EDistanceMetric.L1 rfl rfl (by decide) (by decide) rfl rfl (by decide) rfl rfl rfl).1,
   (coordinator_data_flow (sampleEnv true []) (sampleCli "" "" "out.csv" "L1") ()
      [[1, 2], [3, 4]] [[1, 2], [3, 4]] [[1, 2]] [[0]] [[7], [9]] () () () ()
      EDistanceMetric.L1 rfl rfl (by decide) (by decide) rfl rfl (by decide) rfl rfl
      rfl).2.2.1 (by decide) (fun _ => rfl),
   by decide,
   (coordinator_data_flow (sampleEnv true []) (sampleCli "" "" "nodir/out.csv" "L1") ()
      [[1, 2], [3, 4]] [[1, 2], [3, 4]] [[1, 2]] [[0]] [[7], [9]] () () () ()
      EDistanceMetric.L1 rfl rfl (by decide) (by decide) rfl rfl (by decide) rfl rfl
      rfl).2.1,
   by decide⟩

end DistanceCalculator
